import Mathlib

/-!
Verification development for `scripts/kibersos_autopost.py` (KiberSOS autoposter).

The Python script is shallowly embedded below.  Conventions, stated once here:

* Python `str` is modelled as Lean `String`; positions and lengths count
  codepoints, as Python's `len`/slicing do.  Heavy text processing is done on
  `List Char` via small helper functions.
* Python `float` comparisons against the literal thresholds `0.05`, `0.5`,
  `0.65`, `0.7` are modelled exactly over `ℚ` (core `Rat` operations, so that
  everything evaluates in the kernel).  For the integer-valued operands
  appearing in the script the double-rounding of these literals cannot flip
  any comparison, so the rational model is exact.
* `str.lower()`/`str.upper()` are modelled for ASCII and the Cyrillic block
  actually used by the script's data (`А`–`Я`/`а`–`я` and `Ё`/`ё`); all other
  codepoints are left unchanged.  The regex classes `\w` and `\s` are modelled
  as ASCII alphanumerics/underscore plus the U+0400–U+04FF Cyrillic block,
  and Python's whitespace set, respectively.
* Third-party library behaviour that the script only calls through an opaque
  interface is passed in as a function parameter: `difflib.SequenceMatcher
  .ratio` (parameter `ratioFn`), `hashlib.md5(...).hexdigest()` (parameter
  `md5hex`), `html.unescape` (parameter `unesc`), the network (entry lists,
  transcripts and LLM outcomes as data).  Every claim proved below holds for
  all instantiations of these parameters.
* The `re` module is embedded by a small backtracking regex engine over an
  explicit pattern AST (`Re` below); each pattern literal of the script is
  transcribed into that AST next to its Python source text.
-/

unseal Rat.mul Rat.add Rat.sub

set_option maxRecDepth 10000

/-! ## Characters: case mapping, word characters, whitespace -/

/-- Codepoint-level lowercasing: ASCII `A`–`Z`, Cyrillic `А`–`Я` (U+0410–U+042F)
and `Ё` (U+0401), other codepoints unchanged (model of Python `str.lower` on
the alphabets the script manipulates). -/
def lowerCp (n : Nat) : Nat :=
  if 65 ≤ n ∧ n ≤ 90 then n + 32
  else if 0x410 ≤ n ∧ n ≤ 0x42F then n + 32
  else if n = 0x401 then 0x451
  else n

/-- Codepoint-level uppercasing, inverse direction of `lowerCp`. -/
def upperCp (n : Nat) : Nat :=
  if 97 ≤ n ∧ n ≤ 122 then n - 32
  else if 0x430 ≤ n ∧ n ≤ 0x44F then n - 32
  else if n = 0x451 then 0x401
  else n

theorem toNat_ofNat_valid (n : Nat) (h : n.isValidChar) : (Char.ofNat n).toNat = n := by
  rw [Char.ofNat, dif_pos h]
  rfl

theorem lowerCp_valid {n : Nat} (h : n.isValidChar) : (lowerCp n).isValidChar := by
  rcases h with h | ⟨h1, h2⟩ <;>
    (unfold lowerCp
     split
     · exact Or.inl (by omega)
     · split
       · exact Or.inl (by omega)
       · split
         · exact Or.inl (by omega)
         · first
             | exact Or.inl (by omega)
             | exact Or.inr ⟨by omega, by omega⟩)

theorem char_toNat_valid (c : Char) : c.toNat.isValidChar := by
  rcases c.valid with h | ⟨h1, h2⟩
  · exact Or.inl h
  · exact Or.inr ⟨h1, h2⟩

def lowerChar (c : Char) : Char := Char.ofNat (lowerCp c.toNat)

def upperChar (c : Char) : Char := Char.ofNat (upperCp c.toNat)

theorem lowerChar_toNat (c : Char) : (lowerChar c).toNat = lowerCp c.toNat :=
  toNat_ofNat_valid _ (lowerCp_valid (char_toNat_valid c))

theorem lowerCp_idem (n : Nat) : lowerCp (lowerCp n) = lowerCp n := by
  by_cases h1 : 65 ≤ n ∧ n ≤ 90
  · have e1 : lowerCp n = n + 32 := by unfold lowerCp; rw [if_pos h1]
    rw [e1]
    unfold lowerCp
    rw [if_neg (by omega), if_neg (by omega), if_neg (by omega)]
  · by_cases h2 : 0x410 ≤ n ∧ n ≤ 0x42F
    · have e1 : lowerCp n = n + 32 := by unfold lowerCp; rw [if_neg h1, if_pos h2]
      rw [e1]
      unfold lowerCp
      rw [if_neg (by omega), if_neg (by omega), if_neg (by omega)]
    · by_cases h3 : n = 0x401
      · have e1 : lowerCp n = 0x451 := by unfold lowerCp; rw [if_neg h1, if_neg h2, if_pos h3]
        rw [e1]
        unfold lowerCp
        rw [if_neg (by omega), if_neg (by omega), if_neg (by omega)]
      · have e1 : lowerCp n = n := by unfold lowerCp; rw [if_neg h1, if_neg h2, if_neg h3]
        rw [e1, e1]

theorem lowerChar_idem (c : Char) : lowerChar (lowerChar c) = lowerChar c := by
  unfold lowerChar
  rw [toNat_ofNat_valid _ (lowerCp_valid (char_toNat_valid c)), lowerCp_idem]

/-- Model of the regex class `\w` (ASCII alphanumerics, underscore, and the
Cyrillic block U+0400–U+04FF; the script's data is Latin/Cyrillic). -/
def isWordCp (n : Nat) : Bool :=
  decide ((48 ≤ n ∧ n ≤ 57) ∨ (65 ≤ n ∧ n ≤ 90) ∨ (97 ≤ n ∧ n ≤ 122) ∨
    n = 95 ∨ (0x400 ≤ n ∧ n ≤ 0x4FF))

def isWordChar (c : Char) : Bool := isWordCp c.toNat

/-- Model of Python's whitespace set / the regex class `\s`
(space, tab, newline, carriage return, vertical tab, form feed). -/
def isSpaceCp (n : Nat) : Bool :=
  decide (n = 32 ∨ n = 9 ∨ n = 10 ∨ n = 13 ∨ n = 11 ∨ n = 12)

def pySpace (c : Char) : Bool := isSpaceCp c.toNat

theorem isWordCp_lowerCp (n : Nat) (h : isWordCp n = true) : isWordCp (lowerCp n) = true := by
  simp only [isWordCp, decide_eq_true_eq] at h ⊢
  unfold lowerCp
  split
  · omega
  · split
    · omega
    · split
      · omega
      · omega

theorem isSpaceCp_lowerCp (n : Nat) : isSpaceCp (lowerCp n) = isSpaceCp n := by
  simp only [isSpaceCp, decide_eq_decide]
  unfold lowerCp
  split
  · omega
  · split
    · omega
    · split
      · omega
      · omega

theorem pySpace_lowerChar (c : Char) : pySpace (lowerChar c) = pySpace c := by
  simp only [pySpace, lowerChar_toNat, isSpaceCp_lowerCp]

theorem isWordChar_lowerChar (c : Char) (h : isWordChar c = true) :
    isWordChar (lowerChar c) = true := by
  simp only [isWordChar, lowerChar_toNat] at h ⊢
  exact isWordCp_lowerCp _ h

/-! ## Strings as char lists: basic text helpers -/

def pyLowerL (l : List Char) : List Char := l.map lowerChar

def pyLower (s : String) : String := String.mk (pyLowerL s.data)

def pyUpperL (l : List Char) : List Char := l.map upperChar

def pyUpper (s : String) : String := String.mk (pyUpperL s.data)

/-- `needle` occurs as a prefix of `hay` (char-list form). -/
def startsCh : List Char → List Char → Bool
  | [], _ => true
  | _ :: _, [] => false
  | a :: n, b :: h => a == b && startsCh n h

/-- Python's `needle in hay` substring test (char-list form). -/
def subCh : List Char → List Char → Bool
  | n, [] => n.isEmpty
  | n, c :: t => startsCh n (c :: t) || subCh n t

/-- Python's `needle in hay` substring test on strings. -/
def strIn (needle hay : String) : Bool := subCh needle.data hay.data

/-- Python's `hay.startswith(needle)` on strings. -/
def strStarts (needle hay : String) : Bool := startsCh needle.data hay.data

/-- Python's `s[:n]` slice (by codepoints). -/
def strTake (n : Nat) (s : String) : String := String.mk (s.data.take n)

/-- Python's `str.strip()` (strip whitespace from both ends). -/
def stripWsL (l : List Char) : List Char :=
  ((l.dropWhile pySpace).reverse.dropWhile pySpace).reverse

def pyStrip (s : String) : String := String.mk (stripWsL s.data)

/-- Python's `s[-n:]` (the last `n` elements; the whole list when shorter). -/
def lastN (n : Nat) (l : List α) : List α := l.drop (l.length - n)

/-! ## The regex engine

A small backtracking matcher with explicit fuel, used to embed the `re`
patterns of the script.  Alternatives are tried left to right and repetition
is greedy or lazy exactly as in Python's `re`, so the engine's match/first
match/non-overlapping `findall` semantics mirror the module on the pattern
subset the script uses (literals, classes, `.`, alternation, bounded and
unbounded repetition, one capture group, `\b`, `^`, `$`, `IGNORECASE`,
`DOTALL`). -/

inductive RItem where
  | ch (c : Char)
  | rng (lo hi : Char)
  | wordc
  | digitc
  | spacec
deriving Repr, DecidableEq

inductive Re where
  | eps
  | lit (c : Char)
  | anyc
  | cls (neg : Bool) (items : List RItem)
  | seq (a b : Re)
  | alt (a b : Re)
  | rep (lo : Nat) (hi : Option Nat) (greedy : Bool) (a : Re)
  | wb
  | bos
  | eos
  | grp (a : Re)
deriving Repr

/-- Does a single char satisfy one class item? -/
def itemMatch (c : Char) : RItem → Bool
  | .ch d => c == d
  | .rng lo hi => lo ≤ c && c ≤ hi
  | .wordc => isWordChar c
  | .digitc => c.isDigit
  | .spacec => pySpace c

/-- Class membership, honouring `IGNORECASE` the way `re` does (a char matches
if it, its lowercase or its uppercase form is in the class). -/
def clsMatch (ci : Bool) (c : Char) (items : List RItem) : Bool :=
  items.any (itemMatch c) ||
    (ci && (items.any (itemMatch (lowerChar c)) || items.any (itemMatch (upperChar c))))

/-- Literal comparison, honouring `IGNORECASE`. -/
def litMatch (ci : Bool) (c d : Char) : Bool :=
  c == d || (ci && lowerChar c == lowerChar d)

structure MSt where
  prev : Option Char
  pos : Nat
  rest : List Char
  cap : Option (Nat × Nat)

/-- One backtracking matching step, in continuation-passing style.  `fuel`
decreases on every recursive call; it is instantiated generously in `mrun`. -/
def mstep (ci dotall : Bool) :
    Nat → Re → MSt → (MSt → Option (Nat × Option (Nat × Nat))) → Option (Nat × Option (Nat × Nat))
  | 0, _, _, _ => none
  | _ + 1, .eps, st, k => k st
  | _ + 1, .lit c, st, k =>
    match st.rest with
    | [] => none
    | x :: xs =>
      if litMatch ci x c then k ⟨some x, st.pos + 1, xs, st.cap⟩ else none
  | _ + 1, .anyc, st, k =>
    match st.rest with
    | [] => none
    | x :: xs =>
      if dotall || x ≠ '\n' then k ⟨some x, st.pos + 1, xs, st.cap⟩ else none
  | _ + 1, .cls neg items, st, k =>
    match st.rest with
    | [] => none
    | x :: xs =>
      if clsMatch ci x items ≠ neg then k ⟨some x, st.pos + 1, xs, st.cap⟩ else none
  | f + 1, .seq a b, st, k => mstep ci dotall f a st (fun st' => mstep ci dotall f b st' k)
  | f + 1, .alt a b, st, k =>
    match mstep ci dotall f a st k with
    | some r => some r
    | none => mstep ci dotall f b st k
  | f + 1, .rep lo hi greedy a, st, k =>
    match lo with
    | l + 1 =>
      mstep ci dotall f a st (fun st' =>
        mstep ci dotall f (.rep l (hi.map (· - 1)) greedy a) st' k)
    | 0 =>
      match hi with
      | some 0 => k st
      | _ =>
        let tryMore := fun () =>
          mstep ci dotall f a st (fun st' =>
            if st.pos < st'.pos then
              mstep ci dotall f (.rep 0 (hi.map (· - 1)) greedy a) st' k
            else none)
        if greedy then
          match tryMore () with
          | some r => some r
          | none => k st
        else
          match k st with
          | some r => some r
          | none => tryMore ()
  | _ + 1, .wb, st, k =>
    let before := match st.prev with | none => false | some c => isWordChar c
    let after := match st.rest with | [] => false | c :: _ => isWordChar c
    if before ≠ after then k st else none
  | _ + 1, .bos, st, k => if st.pos = 0 then k st else none
  | _ + 1, .eos, st, k =>
    match st.rest with
    | [] => k st
    | ['\n'] => k st
    | _ => none
  | f + 1, .grp a, st, k =>
    mstep ci dotall f a st (fun st' => k { st' with cap := some (st.pos, st'.pos) })

/-- Fuel bound: generous budget proportional to the square of the remaining
input (the script's patterns have at most quadratic backtracking). -/
def reFuel (n : Nat) : Nat := 4000 * (n + 2) * (n + 2)

/-- Try to match `r` at the very start of `rest` (anchored); returns the end
position and the group-1 span on success. -/
def mrun (ci dotall : Bool) (r : Re) (prev : Option Char) (pos : Nat) (rest : List Char) :
    Option (Nat × Option (Nat × Nat)) :=
  mstep ci dotall (reFuel rest.length) r ⟨prev, pos, rest, none⟩ (fun st => some (st.pos, st.cap))

/-- Leftmost match: scan start positions left to right (model of `re.search`).
Returns `(start, end, group-1 span)`. -/
def msearchAux (ci dotall : Bool) (r : Re) :
    Option Char → Nat → List Char → Option (Nat × Nat × Option (Nat × Nat))
  | prev, i, rest =>
    match mrun ci dotall r prev i rest with
    | some (e, cap) => some (i, e, cap)
    | none =>
      match rest with
      | [] => none
      | c :: cs => msearchAux ci dotall r (some c) (i + 1) cs

def msearch (ci dotall : Bool) (r : Re) (l : List Char) :
    Option (Nat × Nat × Option (Nat × Nat)) :=
  msearchAux ci dotall r none 0 l

/-- `re.search(pattern, s)` succeeds (boolean form). -/
def reTest (ci dotall : Bool) (r : Re) (l : List Char) : Bool :=
  (msearch ci dotall r l).isSome

/-- Non-overlapping matches, left to right (model of `re.findall`): spans with
their group-1 spans.  After an empty match the scan advances by one, as in
Python. -/
def mfindAux (ci dotall : Bool) (r : Re) :
    Nat → Option Char → Nat → List Char → List (Nat × Nat × Option (Nat × Nat))
  | 0, _, _, _ => []
  | fuel + 1, prev, i, rest =>
    match msearchAux ci dotall r prev i rest with
    | none => []
    | some (s, e, cap) =>
      let skip := if i < e then e - i else s + 1 - i
      let rest' := rest.drop skip
      let prev' := (rest.take skip).getLast? <|> prev
      (s, e, cap) :: mfindAux ci dotall r fuel prev' (i + skip) rest'

def mfindall (ci dotall : Bool) (r : Re) (l : List Char) :
    List (Nat × Nat × Option (Nat × Nat)) :=
  mfindAux ci dotall r (l.length + 1) none 0 l

/-- Number of `re.findall` matches. -/
def reCount (ci dotall : Bool) (r : Re) (l : List Char) : Nat :=
  (mfindall ci dotall r l).length

/-- The matched slices of `re.findall` (whole match). -/
def reFindSlices (ci dotall : Bool) (r : Re) (l : List Char) : List (List Char) :=
  (mfindall ci dotall r l).map (fun m => (l.drop m.1).take (m.2.1 - m.1))

/-- The group-1 slices of `re.findall` for a single-group pattern. -/
def reFindGroup1 (ci dotall : Bool) (r : Re) (l : List Char) : List (List Char) :=
  (mfindall ci dotall r l).map (fun m =>
    match m.2.2 with
    | some (a, b) => (l.drop a).take (b - a)
    | none => [])

/-! ### Pattern construction helpers -/

def rcat (l : List Re) : Re := l.foldr Re.seq .eps

def ralts : List Re → Re
  | [] => .eps
  | [r] => r
  | r :: rs => .alt r (ralts rs)

/-- A literal string as a pattern. -/
def rstr (s : String) : Re := rcat (s.data.map Re.lit)

def ralt2 (a b : Re) : Re := .alt a b

/-- `r?` (greedy optional). -/
def ropt (r : Re) : Re := .rep 0 (some 1) true r

/-- `r*` (greedy). -/
def rstar (r : Re) : Re := .rep 0 none true r

/-- `r+` (greedy). -/
def rplus (r : Re) : Re := .rep 1 none true r

/-- `r*?` (lazy). -/
def rstarLazy (r : Re) : Re := .rep 0 none false r

/-- `\d`. -/
def rd : Re := .cls false [.digitc]

/-- `\s`. -/
def rs : Re := .cls false [.spacec]

/-- `\w`. -/
def rw : Re := .cls false [.wordc]

/-- `\s+`. -/
def rsp : Re := rplus rs

/-- `\s*`. -/
def rss : Re := rstar rs

/-- Alternation of literal strings. -/
def rstrs (l : List String) : Re := ralts (l.map rstr)

/-! ### Regex-based substitution (model of `re.sub` with a one-char replacement) -/

/-- Replace the given disjoint, sorted spans by a single space each.  `i` is
the absolute position of the head of `rest`. -/
def applySpansSp : List (Nat × Nat) → Nat → List Char → List Char
  | [], _, rest => rest
  | (s, e) :: sp, i, rest =>
    (rest.take (s - i)) ++ ' ' :: applySpansSp sp e (rest.drop (e - i))

/-- `re.sub(pattern, ' ', l)`: every non-overlapping match replaced by one
space. -/
def reSubSpace (ci dotall : Bool) (r : Re) (l : List Char) : List Char :=
  applySpansSp ((mfindall ci dotall r l).map (fun m => (m.1, m.2.1))) 0 l

/-! ## Keyword lists of the script (verbatim data) -/

/-- `BANNED_PHRASES` from the script (verbatim). -/
def BANNED_PHRASES : List String := [
  "из доверенных источников", "регулярно обновляйте", "будьте бдительны",
  "используйте антивирус", "надёжный пароль", "надежный пароль",
  "будьте осторожны", "проверяйте ссылки", "сложные пароли",
  "надежные решения", "системы обнаружения", "мониторинг трафика",
  "защитить свои данные", "потенциальных атак", "соблюдайте осторожность",
  "базовые правила", "кибергигиен", "используйте надежн",
  "регулярное резервное", "обучение сотрудников", "повышение осведомленности",
  "комплексный подход", "многоуровневая защита", "своевременно устанавливайте",
  "будьте внимательны", "не открывайте подозрительные", "проявляйте осторожность",
  "обновить сигнатуры", "обновите сигнатуры", "обновление сигнатур",
  "антивирусное ПО", "антивирус", "антивируса", "антивирусные",
  "включить детекцию", "включите детекцию", "включить обнаружение",
  "сканировать систему", "провести сканирование", "полное сканирование",
  "рекомендуется обновить", "следует обновить", "необходимо обновить",
  "выпустила исправление", "выпустила патч", "выпустила обновление",
  "установите последнее обновление", "установите последний патч",
  "обновитесь до последней версии", "перейдите на последнюю версию",
  "своевременно устанавливайте обновления", "не откладывайте обновления",
  "осторожность", "бдительность", "внимательность",
  "проявляйте бдительность", "будьте начеку", "не теряйте бдительность",
  "принять меры", "принять необходимые меры", "предпринять шаги",
  "предпринять действия", "предпринять меры", "осуществить меры",
  "обеспечить безопасность", "повысить безопасность", "усилить безопасность",
  "делайте резервные копии", "создавайте бэкапы", "резервное копирование",
  "backup", "регулярно бэкапьте", "храните резервные копии",
  "включите двухфакторную аутентификацию", "включите 2fa", "включите mfa",
  "используйте двухфакторную", "настройте двухфакторную",
  "используйте vpn", "подключайтесь через vpn", "включите firewall",
  "настройте firewall", "используйте межсетевой экран",
  "меняйте пароли", "регулярно меняйте", "используйте уникальные пароли",
  "не используйте одинаковые пароли", "уникальный пароль для каждого",
  "парольный менеджер", "менеджер паролей", "используйте менеджер"]

/-- `BANNED_ADVICE_PATTERNS` from the script, transcribed pattern by pattern
into the `Re` AST (same order as the source list). -/
def BANNED_ADVICE_PATTERNS : List Re := [
  rcat [rstr "обнови", ropt (rstrs ["те", "ть"]), rsp,
    rstrs ["сигнатуры", "антивирус", "защитник", "базы"]],
  rcat [rstr "включи", ropt (rstrs ["те", "ть"]), rsp,
    rstrs ["детекцию", "обнаружение", "защиту", "функцию"]],
  rcat [rstr "установи", ropt (rstrs ["те", "ть"]), rsp,
    rstrs ["последнее", "новое", "свежее"], rsp,
    rstrs ["обновление", "патч", "исправление"]],
  rcat [rstr "обнови", ropt (rstrs ["те", "ться", "ться"]), rsp, rstr "до", rsp,
    rstr "последней", rsp, rstr "версии"],
  rcat [rstr "сканируй", ropt (rstrs ["те", "ть"]), rsp,
    rstrs ["систему", "устройство", "компьютер"]],
  rcat [rstr "проведи", ropt (rstrs ["те", "ть"]), rsp,
    rstrs ["сканирование", "проверку", "аудит"]],
  rcat [rstr "используй", ropt (rstrs ["те", "ть"]), rsp,
    ralts [rstr "антивирус", rstr "защитник", rcat [rstr "защитное", rsp, rstr "ПО"]]],
  rcat [rstr "будь", ropt (rstr "те"), rsp,
    rstrs ["осторожны", "бдительны", "внимательны"]],
  rcat [rstr "проявляй", ropt (rstr "те"), rsp,
    rstrs ["осторожность", "бдительность", "внимательность"]],
  rcat [rstr "проверяй", ropt (rstrs ["те", "ть"]), rsp,
    rstrs ["ссылки", "вложения", "письма", "файлы"]],
  rcat [rstr "не", rsp,
    ralts [rcat [rstr "открывай", ropt (rstr "те")], rcat [rstr "кликай", ropt (rstr "те")]],
    rsp, rstr "подозрительные"],
  rcat [rstr "создавай", ropt (rstrs ["те", "ть"]), rsp,
    ralts [rcat [rstr "резервные", rsp, rstr "копии"], rstr "бэкапы"]],
  rcat [rstr "делай", ropt (rstrs ["те", "ть"]), rsp, rstr "резервные", rsp, rstr "копии"],
  rcat [rstr "включи", ropt (rstrs ["те", "ть"]), rsp,
    rstrs ["2fa", "mfa", "двухфакторную"]],
  rcat [rstr "используй", ropt (rstrs ["те", "ть"]), rsp,
    rstrs ["vpn", "файрвол", "межсетевой"]],
  rcat [rstr "регулярно", rsp,
    ralts [rcat [rstr "обновляй", ropt (rstr "те")], rcat [rstr "меняй", ropt (rstr "те")],
      rcat [rstr "проверяй", ropt (rstr "те")]]],
  rcat [rstr "своевременно", rsp,
    ralts [rcat [rstr "устанавливай", ropt (rstr "те")], rcat [rstr "обновляй", ropt (rstr "те")]]],
  rcat [rstr "приня", rstrs ["ть", "тие"], rsp, rstrs ["меры", "мер", "действия", "шаги"]],
  rcat [rstr "обеспеч", rstrs ["ите", "ить"], rsp, rstr "безопасность"],
  rcat [rstr "повыс", rstrs ["ите", "ить"], rsp, ropt (rcat [rstr "уровень", rsp]),
    rstr "безопасности"],
  rcat [rstr "усил", rstrs ["ите", "ить"], rsp, rstrs ["защиту", "безопасность"]],
  rcat [rstr "след", rstrs ["ует", "ить"], rsp, ropt (rcat [rstr "за", rsp]),
    rstr "обновлениями"],
  rcat [rstr "монитор", rstrs ["ьте", "инг"], rsp,
    rstrs ["трафик", "события", "логи", "активность"]],
  rcat [rstr "обуч", rstrs ["ите", "айте"], rsp, rstr "сотрудников"],
  rcat [rstr "повы", rstrs ["сьте", "шайте"], rsp, rstr "осведомленность"],
  rcat [rstr "соблюдай", ropt (rstr "те"), rsp, rstrs ["правила", "меры", "рекомендации"]],
  rcat [rstr "комплексн", rstrs ["ый", "ого", "ая"], rsp, rstrs ["подход", "меры", "защита"]],
  rcat [rstr "многоуровнев", rstrs ["ая", "ую", "ой"], rsp, rstr "защита"],
  rcat [rstr "кибергигиен", rstrs ["а", "ы", "е", "у"]]]

/-- The hex-digit class `[a-f0-9]`. -/
def hexCls : Re := .cls false [.rng 'a' 'f', .rng '0' '9']

/-- The character class `[exe|dll|apk|ps1|bat|sh|vbs|msi|doc|docx|pdf|zip|rar]`
of the script (a class, so just the set of its characters). -/
def extCls : Re := .cls false [.ch 'e', .ch 'x', .ch 'd', .ch 'l', .ch 'a', .ch 'p',
  .ch 'k', .ch 's', .ch '1', .ch 'b', .ch 't', .ch 'h', .ch 'v', .ch 'm', .ch 'i',
  .ch 'o', .ch 'c', .ch 'f', .ch 'z', .ch 'r', .ch '|']

/-- `SPECIFIC_INDICATORS` from the script, transcribed into the `Re` AST
(same order as the source list). -/
def SPECIFIC_INDICATORS : List Re := [
  rcat [rstr "CVE-", .rep 4 (some 4) true rd, .lit '-', rplus rd],
  rcat [rplus rd, .lit '.', rplus rd, .lit '.', rplus rd,
    rstar (.cls false [.ch '.', .digitc, .ch '+'])],
  rcat [rstr "порт", ropt (.cls false [.ch 'ы']), rss, rplus rd],
  rcat [.rep 1 (some 3) true rd, .lit '.', .rep 1 (some 3) true rd, .lit '.',
    .rep 1 (some 3) true rd, .lit '.', .rep 1 (some 3) true rd],
  .rep 32 (some 64) true hexCls,
  rcat [rstr "0x", rplus hexCls],
  rcat [.wb, .cls false [.rng 'A' 'Z'], .lit ':', .lit '\\'],
  rstrs ["/etc/", "/var/", "/tmp/", "/usr/", "/opt/"],
  rcat [.lit '.', .rep 3 (some 4) true extCls, .wb],
  rcat [.wb, ralts [rstr "powershell", rstr "cmd", rstr "bash", rstr "python",
    rstr "curl", rstr "wget", rstr "netsh", rcat [rstr "reg", rsp, rstr "add"],
    rstr "chmod", rstr "chown", rstr "sudo", rstr "netstat", rstr "tasklist",
    rcat [rstr "sc", rsp, rstr "query"]], .wb],
  rcat [.wb, rstrs ["smb", "rdp", "ssh", "ldap", "kerberos", "http", "https", "ftp",
    "smtp", "dns", "vpn", "ipsec", "ssl", "tls"], .wb],
  rcat [.wb, ralts [rcat [rstr "sql", rss, rstr "injection"], rstr "sqli", rstr "xss",
    rstr "csrf", rstr "ssrf", rstr "rce", rstr "lpe", rstr "rop",
    rcat [rstr "heap", rsp, rstr "spray"], rstr "uaf",
    rcat [rstr "use", .anyc, rstr "after", .anyc, rstr "free"]], .wb],
  rcat [.wb, ralts [rstr "mimikatz", rcat [rstr "cobalt", rss, rstr "strike"],
    rstr "metasploit", rstr "burp", rstr "nmap", rstr "wireshark",
    rstr "volatility", rstr "yara", rstr "sigma"], .wb],
  rcat [.wb, ralts [rstr "ioc",
    rcat [rstr "indicator", rsp, rstr "of", rsp, rstr "compromise"],
    rstr "ttp", rstr "ttps", rcat [rstr "mitre", rsp, rstr "att&ck"],
    rstr "cvss", rstr "epss"], .wb],
  rcat [ropt (.lit '['), .lit '.', ropt (.lit ']'),
    rstrs ["com", "net", "org", "ru", "io", "info", "biz", "xyz"], .wb],
  rcat [rstr "http", ropt (.lit 's'), rstr "://", rplus (.cls true [.spacec])]]

/-- `STRONG_TECH_INDICATORS` from the script (verbatim). -/
def STRONG_TECH_INDICATORS : List String := [
  "cve-", "0day", "zero-day", "exploit", "payload", "backdoor", "trojan",
  "ransomware", "apt28", "apt29", "lazarus", "sandworm", "fancy bear",
  "lockbit", "blackcat", "alphv", "conti", "revil", "clop",
  ".exe", ".dll", ".apk", ".ps1", ".bat", ".sh", ".vbs", ".msi",
  "powershell", "mimikatz", "cobalt strike", "metasploit",
  "c2 server", "c&c", "reverse shell", "webshell",
  "sql injection", "sqli", "xss", "csrf", "rce", "lpe", "ssrf",
  "buffer overflow", "heap spray", "use-after-free",
  "smb", "rdp", "ssh", "ldap", "kerberos",
  "lateral movement", "persistence", "exfiltration",
  "ioc", "indicator of compromise", "yara", "sigma rule"]

/-- `TECH_INDICATORS` from the script (verbatim). -/
def TECH_INDICATORS : List String := [
  "cve", "vulnerability", "exploit", "malware", "ransomware", "phishing",
  "backdoor", "trojan", "botnet", "ddos", "apt", "threat actor",
  "zero-day", "patch", "update", "security", "breach", "leak",
  "hack", "attack", "compromise", "infected", "payload",
  "windows", "linux", "android", "ios", "chrome", "firefox",
  "microsoft", "google", "apple", "cisco", "fortinet", "palo alto",
  "уязвимост", "вредонос", "эксплойт", "фишинг", "хакер", "взлом",
  "утечк", "атак", "патч", "брешь", "малвар", "ботнет"]

/-- `STOP_WORDS` from the script (verbatim). -/
def STOP_WORDS : List String := [
  "headphone", "headphones", "earbuds", "earbud", "airpods", "airpod",
  "earphone", "earphones", "headset review", "audio review",
  "bluetooth speaker", "wireless speaker", "portable speaker",
  "jbl ", "jbl charge", "jbl flip", "bose ", "bose quietcomfort",
  "sony wh-", "sony wf-", "beats ", "beats studio", "sennheiser",
  "noise canceling", "noise cancelling", "noise-canceling",
  "audio quality", "sound quality", "bass quality", "music quality",
  "best headphones", "headphone review", "earbuds review",
  "wireless earbuds", "true wireless", "anc headphones",
  "audio gear", "listening experience", "hi-fi", "hi-res audio",
  "phone review", "smartphone review", "tablet review",
  "camera review", "lens review", "best phone", "phone comparison",
  "unboxing", "hands-on review", "first impressions",
  "battery life test", "screen quality", "display review",
  "quarterly earnings", "quarterly results", "fiscal quarter", "fiscal year",
  "appointed ceo", "new ceo", "steps down as", "resigns as ceo",
  "marketing campaign", "brand ambassador", "product launch event",
  "ipo filing", "stock price", "shares rose", "shares fell", "market cap",
  "investor relations", "shareholder", "dividend",
  "bitcoin price", "ethereum price", "crypto trading", "nft trading",
  "forex trading", "investment advice", "trading strategy",
  "casino", "gambling", "betting", "poker", "slots",
  "price prediction", "bull run", "bear market",
  "weight loss", "diet pill", "supplement", "miracle cure",
  "free iphone", "you won", "congratulations you", "claim your prize",
  "work from home", "make money fast", "passive income",
  "game review", "movie review", "album review", "book review",
  "netflix series", "streaming service", "spotify playlist",
  "box office", "entertainment news", "celebrity",
  "travel guide", "hotel review", "restaurant review",
  "fashion", "beauty", "skincare", "makeup"]

/-- `GADGET_PATTERNS` from the script, transcribed into the `Re` AST
(same order as the source list). -/
def GADGET_PATTERNS : List Re := [
  rcat [.wb, rstrs ["headphone", "headphones", "earphone", "earphones", "earbud",
    "earbuds", "airpod", "airpods"], .wb],
  rcat [.wb, rstrs ["bluetooth", "wireless"], rss,
    rstrs ["headphone", "earphone", "earbud", "speaker", "headset"]],
  rcat [.wb, rstr "jbl", .wb],
  rcat [.wb, rstr "bose", .wb],
  rcat [.wb, rstr "sony", rss, rstrs ["wh", "wf"], .lit '-'],
  rcat [.wb, rstr "beats", .wb],
  rcat [.wb, rstr "sennheiser", .wb],
  rcat [.wb, rstrs ["best", "top", "review", "rating"], .rep 0 (some 30) true .anyc,
    rstrs ["headphone", "earphone", "audio", "speaker"]],
  rcat [.wb, ralts [rcat [rstr "noise", .anyc, rstr "cancel", ropt (.lit 'l'), rstr "ing"],
    rstr "anc"], .wb],
  rcat [.wb, rstr "audio", rss, rstrs ["quality", "review", "gear", "test"], .wb]]

/-- `SECURITY_KEYWORDS` from the script (verbatim). -/
def SECURITY_KEYWORDS : List String := [
  "vulnerability", "vulnerabilities", "vulnerable", "exploit", "exploited", "exploitation",
  "malware", "ransomware", "phishing", "spyware", "adware", "rootkit", "keylogger",
  "trojan", "backdoor", "botnet", "ddos", "dos attack", "worm",
  "zero-day", "0-day", "0day", "zeroday",
  "breach", "breached", "data breach", "security breach",
  "leak", "leaked", "leaks", "data leak",
  "hack", "hacked", "hacker", "hackers", "hacking",
  "attack", "attacked", "attacker", "attackers", "cyber attack", "cyberattack",
  "compromise", "compromised", "intrusion", "unauthorized access",
  "incident", "security incident",
  "patch", "patches", "patched", "patching",
  "security update", "security patch", "emergency patch",
  "security flaw", "security bug", "security hole", "security issue",
  "security advisory", "security bulletin", "critical update",
  "security fix", "hotfix",
  "apt", "threat actor", "threat group", "nation-state", "state-sponsored",
  "lazarus", "apt28", "apt29", "apt27", "apt41",
  "fancy bear", "cozy bear", "sandworm", "turla",
  "killnet", "lockbit", "blackcat", "alphv", "clop", "revil", "conti",
  "darkside", "ragnar", "maze", "ryuk", "emotet", "trickbot",
  "rce", "remote code execution",
  "privilege escalation", "lpe", "local privilege",
  "sql injection", "sqli",
  "xss", "cross-site scripting",
  "csrf", "ssrf",
  "authentication bypass", "auth bypass",
  "buffer overflow", "memory corruption", "use-after-free",
  "code injection", "command injection",
  "cybersecurity", "cyber security", "infosec", "information security",
  "security researcher", "security team", "security firm",
  "threat intelligence", "threat hunting",
  "malicious", "suspicious", "infected", "payload",
  "command and control", "c2 server", "c&c",
  "ioc", "indicator of compromise",
  "forensic", "incident response"]

/-! ## `passes_local_filters` -/

/-- The inline security-context keyword list of `passes_local_filters`
(verbatim). -/
def SECURITY_CONTEXT_KEYWORDS : List String := [
  "vulnerability", "exploit", "attack", "hack", "breach",
  "malware", "security flaw", "cve-", "patch"]

/-- `passes_local_filters(title, text)`: strict keyword filtering.  Mirrors
the source: any stop word in the lowercased `title + " " + text` rejects; any
gadget pattern in the lowercased title rejects; a gadget pattern in the
content without a security-context keyword rejects; no security keyword
rejects; `len(text) < 50` rejects; otherwise accept. -/
def passes_local_filters (title text : String) : Bool :=
  let content := pyLower (title ++ " " ++ text)
  let title_lower := pyLower title
  if STOP_WORDS.any (fun stop => strIn stop content) then false
  else if GADGET_PATTERNS.any (fun p => reTest false false p title_lower.data) then false
  else if GADGET_PATTERNS.any (fun p => reTest false false p content.data) ∧
      ¬ SECURITY_CONTEXT_KEYWORDS.any (fun kw => strIn kw content) then false
  else if ¬ SECURITY_KEYWORDS.any (fun kw => strIn kw content) then false
  else if text.length < 50 then false
  else true

/-! ## Banality detection -/

/-- `count_specific_indicators(text)`: the number of `re.findall` matches of
every `SPECIFIC_INDICATORS` pattern on the lowercased text (the script passes
`re.IGNORECASE` as well), plus 2 for every `STRONG_TECH_INDICATORS` substring
present. -/
def count_specific_indicators (text : String) : Nat :=
  let text_lower := pyLower text
  (SPECIFIC_INDICATORS.map (fun p => reCount true false p text_lower.data)).sum +
    2 * STRONG_TECH_INDICATORS.countP (fun ind => strIn ind text_lower)

/-- `has_banned_advice(text)`: the Python function returns a pair
`(len(found) > 0, list(set(found)))`; every use downstream only consults
emptiness, so the model returns the boolean. -/
def has_banned_advice (text : String) : Bool :=
  let text_lower := pyLower text
  BANNED_PHRASES.any (fun p => strIn p text_lower) ||
    BANNED_ADVICE_PATTERNS.any (fun p => reTest false false p text_lower.data)

/-- The class `[:：]`. -/
def colonCls : Re := .cls false [.ch ':', .ch '：']

/-- The explicit advice-section patterns of `extract_advice_section`, searched
with `re.DOTALL | re.IGNORECASE` (same order as the source).  The sixth
pattern has no capture group, so when it is the first matching pattern the
source's `match.group(1)` raises `IndexError`; the model makes
`extract_advice_section` `Option`-valued, with `none` standing for that
exception, and the exception propagates through `is_too_generic` and
`generate_post` exactly as in Python. -/
def ADVICE_SECTION_PATTERNS : List Re := [
  rcat [.lit '👇', rss, rstr "Что делать", ropt colonCls, .grp (rstarLazy .anyc),
    ralt2 (rstr "\n\n") .eos],
  rcat [.lit '👇', rss, rstr "Рекомендации", ropt colonCls, .grp (rstarLazy .anyc),
    ralt2 (rstr "\n\n") .eos],
  rcat [.lit '🔧', rss, rstr "Что делать", ropt colonCls, .grp (rstarLazy .anyc),
    ralt2 (rstr "\n\n") .eos],
  rcat [.lit '✅', rss, rstr "Рекомендации", ropt colonCls, .grp (rstarLazy .anyc),
    ralt2 (rstr "\n\n") .eos],
  rcat [.lit '📌', rss, rstr "Меры", ropt colonCls, .grp (rstarLazy .anyc),
    ralt2 (rstr "\n\n") .eos],
  rcat [.lit '•', rss, ropt (.lit '['), rstr "Конкретное действие", ropt (.lit ']')]]

/-- Outcome of scanning the explicit advice patterns in order. -/
inductive AdviceScan where
  | found (s : List Char)
  | raised
  | noMatch
deriving Repr, DecidableEq

/-- First advice pattern that matches: its group-1 slice when the pattern has
a capture group, `raised` when it has none (Python's `match.group(1)` raises
`IndexError` there), `noMatch` when no pattern matches. -/
def findFirstAdvice : List Re → List Char → AdviceScan
  | [], _ => .noMatch
  | p :: ps, l =>
    match msearch true true p l with
    | some (_, _, some (a, b)) => .found ((l.drop a).take (b - a))
    | some (_, _, none) => .raised
    | none => findFirstAdvice ps l

/-- Python's `text.split('\n')` (keeps empty pieces). -/
def splitOnNl : List Char → List (List Char)
  | [] => [[]]
  | c :: cs =>
    if c = '\n' then [] :: splitOnNl cs
    else
      match splitOnNl cs with
      | [] => [[c]]
      | w :: ws => (c :: w) :: ws

/-- `sep.join(pieces)` on char lists. -/
def joinSep (sep : Char) : List (List Char) → List Char
  | [] => []
  | [w] => w
  | w :: ws => w ++ sep :: joinSep sep ws

/-- The fallback scan of `extract_advice_section`: walk the lines in reverse,
collect lines containing a bullet character, stop at the first non-bullet
line after a bullet line.  The argument is the reversed line list. -/
def adviceTailScan : List (List Char) → Bool → List (List Char) → List (List Char)
  | [], _, acc => acc
  | l :: rest, inAdvice, acc =>
    if subCh ['•'] l || subCh ['-'] l || subCh ['*'] l then
      adviceTailScan rest true (l :: acc)
    else if inAdvice then acc
    else adviceTailScan rest inAdvice acc

/-- `extract_advice_section(text)`: the group-1 slice (stripped) of the first
matching explicit pattern, else the trailing bullet-list scan.  `none` models
the `IndexError` raised by `match.group(1)` when the first matching pattern
is the group-less sixth one. -/
def extract_advice_section (text : String) : Option String :=
  match findFirstAdvice ADVICE_SECTION_PATTERNS text.data with
  | .found s => some (pyStrip (String.mk s))
  | .raised => none
  | .noMatch =>
    some (String.mk (joinSep '\n' (adviceTailScan (splitOnNl text.data).reverse false [])))

/-- Characters kept by `re.sub(r'[^\w\s]', '', ·)` (the pattern is a
single-character class, so the substitution is a filter). -/
def keepWordSpace (c : Char) : Bool := isWordChar c || pySpace c

/-- Python's `str.split()` (split on whitespace runs, no empty pieces),
written with an accumulator so that it evaluates by structural recursion. -/
def wordsOfAux : List Char → List Char → List (List Char)
  | [], cur => if cur.isEmpty then [] else [cur.reverse]
  | c :: cs, cur =>
    if pySpace c then
      if cur.isEmpty then wordsOfAux cs []
      else cur.reverse :: wordsOfAux cs []
    else wordsOfAux cs (c :: cur)

def wordsOf (l : List Char) : List (List Char) := wordsOfAux l []

/-- `is_too_generic(text)`: the six rejection rules of the script, evaluated
on the quantities computed exactly as in the source.  The advice-section
extraction runs before any rejection rule in the source, so when it raises
(`extract_advice_section text = none`) the whole function raises: that
outcome is `none`, and `some b` is a normal return of `b`.  (The quantities
before the extraction are pure, so computing them inside `let`s first is
value-equivalent.) -/
def is_too_generic (text : String) : Option Bool :=
  let text_lower := pyLower text
  let banned_count := BANNED_PHRASES.countP (fun p => strIn p text_lower)
  let specific_count := count_specific_indicators text
  let strong_tech := STRONG_TECH_INDICATORS.countP (fun t => strIn t text_lower)
  match extract_advice_section text with
  | none => none
  | some advice_section =>
    let advice_has_banality :=
      if advice_section ≠ "" then has_banned_advice advice_section else false
    some (
      if 2 ≤ banned_count then true
      else if advice_section ≠ "" ∧ advice_has_banality ∧
          count_specific_indicators advice_section < 2 then true
      else if specific_count = 0 ∧ strong_tech < 1 then true
      else if TECH_INDICATORS.countP (fun t => strIn t text_lower) < 2 then true
      else if (wordsOf ((pyLowerL text.data).filter keepWordSpace)).length < 25 then true
      else if 1 ≤ banned_count ∧ specific_count < 2 ∧ strong_tech < 2 then true
      else false)

/-- The `vague_markers` patterns of `clean_banal_advice`, transcribed (same
order as the source). -/
def VAGUE_MARKERS : List Re := [
  rcat [.bos, rss, .cls false [.ch '•', .ch '-', .ch '*'], rss, rstr "обновите"],
  rcat [.bos, rss, .cls false [.ch '•', .ch '-', .ch '*'], rss, rstr "используйте", rsp,
    rstr "антивирус"],
  rcat [.bos, rss, .cls false [.ch '•', .ch '-', .ch '*'], rss, rstr "будьте", rsp,
    rstrs ["осторожны", "бдительны"]],
  rcat [.bos, rss, .cls false [.ch '•', .ch '-', .ch '*'], rss, rstr "проверяйте", rsp,
    rstr "ссылки"],
  rcat [.bos, rss, .cls false [.ch '•', .ch '-', .ch '*'], rss, rstr "не", rsp,
    rstr "открывайте"],
  rcat [.bos, rss, .cls false [.ch '•', .ch '-', .ch '*'], rss, rstr "делайте", rsp,
    rstr "резервные"],
  rcat [.bos, rss, .cls false [.ch '•', .ch '-', .ch '*'], rss, rstr "включите", rsp,
    rstr "двухфакторную"],
  rcat [.bos, rss, .cls false [.ch '•', .ch '-', .ch '*'], rss, rstr "используйте", rsp,
    rstrs ["vpn", "менеджер"]]]

/-- One line of `clean_banal_advice` is dropped when its lowercased form
contains a banned phrase, matches a banned advice pattern, or matches a vague
marker. -/
def isBanalLine (line : List Char) : Bool :=
  let ll := pyLowerL line
  BANNED_PHRASES.any (fun p => subCh p.data ll) ||
    BANNED_ADVICE_PATTERNS.any (fun p => reTest false false p ll) ||
    VAGUE_MARKERS.any (fun p => reTest false false p ll)

/-- `clean_banal_advice(text)`: drop the banal lines, keep the rest. -/
def clean_banal_advice (text : String) : String :=
  String.mk (joinSep '\n' ((splitOnNl text.data).filter (fun l => !isBanalLine l)))

/-! ## Duplicate detection -/

/-- The stop-word set of `normalize_title` (verbatim). -/
def NORM_TITLE_STOP : List String :=
  ["the", "a", "an", "is", "are", "was", "were", "in", "on", "at", "to", "for",
   "of", "and", "or", "new", "how"]

/-- The word list built by `normalize_title`: lowercase, strip `[^\w\s]`,
split on whitespace, keep words not in the stop set with length above 2. -/
def normWords (title : String) : List (List Char) :=
  (wordsOf ((pyLowerL title.data).filter keepWordSpace)).filter
    (fun w => ¬ NORM_TITLE_STOP.any (fun s => s.data == w) ∧ 2 < w.length)

/-- `normalize_title(title)`. -/
def normalize_title (title : String) : String :=
  String.mk (joinSep ' ' (normWords title))

/-- Ordered set insertion (model of Python `set.add`; only membership and
cardinality of the entity sets are consumed downstream). -/
def setInsert (l : List String) (s : String) : List String :=
  if l.contains s then l else l ++ [s]

def setInsertMany (l : List String) (new : List String) : List String :=
  new.foldl setInsert l

/-- The pattern `CVE-\d{4}-\d+` (searched case-insensitively where the script
passes `re.I`). -/
def cveRe : Re := rcat [rstr "CVE-", .rep 4 (some 4) true rd, .lit '-', rplus rd]

/-- The malware-name pattern
`\b([A-Z][a-z]+(?:Bot|Locker|Ware|Lock|Cat|Bear|Worm)?)\b` (case-sensitive). -/
def malwareRe : Re :=
  rcat [.wb, .grp (rcat [.cls false [.rng 'A' 'Z'], rplus (.cls false [.rng 'a' 'z']),
    ropt (rstrs ["Bot", "Locker", "Ware", "Lock", "Cat", "Bear", "Worm"])]), .wb]

/-- The `known` entity list of `extract_key_entities` (verbatim). -/
def KNOWN_ENTITIES : List String := [
  "lockbit", "blackcat", "alphv", "clop", "revil", "conti", "darkside",
  "lazarus", "apt28", "apt29", "sandworm", "fancy bear", "cozy bear",
  "emotet", "trickbot", "ryuk", "maze", "ragnar", "qbot", "qakbot",
  "cobalt strike", "mimikatz", "metasploit"]

/-- The `companies` list of `extract_key_entities` (verbatim). -/
def COMPANIES : List String := [
  "microsoft", "google", "apple", "cisco", "fortinet", "palo alto",
  "vmware", "citrix", "adobe", "oracle", "sap", "salesforce",
  "chrome", "firefox", "edge", "windows", "linux", "android", "ios"]

/-- `extract_key_entities(text)`: CVE ids (uppercased), capitalised
malware-like names longer than 3 characters (lowercased), known actor/tool
names and company names occurring in the lowercased text. -/
def extract_key_entities (text : String) : List String :=
  let cves := (reFindSlices true false cveRe text.data).map (fun l => pyUpper (String.mk l))
  let e1 := setInsertMany [] cves
  let malware := ((reFindSlices false false malwareRe text.data).filter
    (fun m => 3 < m.length)).map (fun m => pyLower (String.mk m))
  let e2 := setInsertMany e1 malware
  let text_lower := pyLower text
  let e3 := KNOWN_ENTITIES.foldl
    (fun acc k => if strIn k text_lower then setInsert acc k else acc) e2
  COMPANIES.foldl (fun acc c => if strIn c text_lower then setInsert acc c else acc) e3

/-- Rational of a natural number. -/
def qnat (n : Nat) : ℚ := mkRat (Int.ofNat n) 1

/-- `calculate_similarity(title1, text1, title2, text2)`.  `ratioFn` stands
for `difflib.SequenceMatcher(None, ·, ·).ratio()`; the weights `0.5`, `0.35`,
`0.15` and the short-circuit `1.0` for a shared CVE are the source's. -/
def calculate_similarity (ratioFn : String → String → ℚ)
    (title1 text1 title2 text2 : String) : ℚ :=
  let title_sim := ratioFn (normalize_title title1) (normalize_title title2)
  let entities1 := extract_key_entities (title1 ++ " " ++ text1)
  let entities2 := extract_key_entities (title2 ++ " " ++ text2)
  let text_sim := ratioFn (pyLower (strTake 500 text1)) (pyLower (strTake 500 text2))
  let finalScore := fun (entity_sim : ℚ) =>
    Rat.add (Rat.add (Rat.mul title_sim (mkRat 1 2)) (Rat.mul entity_sim (mkRat 35 100)))
      (Rat.mul text_sim (mkRat 15 100))
  if entities1 ≠ [] ∧ entities2 ≠ [] then
    let inter := entities1.filter (fun e => entities2.contains e)
    let union := setInsertMany entities1 entities2
    let entity_sim := if union ≠ [] then Rat.div (qnat inter.length) (qnat union.length) else 0
    let cve1 := entities1.filter (fun e => strStarts "CVE-" e)
    let cve2 := entities2.filter (fun e => strStarts "CVE-" e)
    if cve1 ≠ [] ∧ cve2 ≠ [] ∧ cve1.any (fun e => cve2.contains e) then mkRat 1 1
    else finalScore entity_sim
  else finalScore 0

/-! ## The persistent state -/

structure RecentPost where
  title : String
  text : String
  time : Int
deriving Repr, DecidableEq

/-- The script's `State.data` dict: `posted_ids` (a JSON dict, modelled as an
insertion-ordered association list as Python dicts are ordered),
`recent_titles`, `recent_posts`. -/
structure StateData where
  posted_ids : List (String × Int)
  recent_titles : List String
  recent_posts : List RecentPost
deriving Repr, DecidableEq

/-- The in-memory default of `State.__init__` (before `_load`). -/
def initStateData : StateData := ⟨[], [], []⟩

/-- `State.is_posted(uid)`: key membership in `posted_ids`. -/
def is_posted (st : StateData) (uid : String) : Bool :=
  st.posted_ids.any (fun p => p.1 == uid)

/-- `State.is_duplicate(title, text)`. -/
def is_duplicate (ratioFn : String → String → ℚ) (st : StateData)
    (title text : String) : Bool :=
  let norm_new := normalize_title title
  if (lastN 30 st.recent_titles).any
      (fun old => decide (mkRat 65 100 < ratioFn norm_new (normalize_title old))) then true
  else
    (lastN 20 st.recent_posts).any (fun old =>
      decide (mkRat 1 2 < calculate_similarity ratioFn title text old.title old.text))

def MAX_POSTED_IDS : Nat := 500

def TEXT_ONLY_THRESHOLD : Nat := 700

/-- Insert into a list sorted by ascending timestamp. -/
def insertByVal (a : String × Int) : List (String × Int) → List (String × Int)
  | [] => [a]
  | b :: l => if a.2 ≤ b.2 then a :: b :: l else b :: insertByVal a l

/-- `sorted(d.items(), key=lambda x: x[1])`: sort by ascending timestamp
(an insertion sort, chosen so that it evaluates by structural recursion; it
agrees with Python's sort up to the order of entries with equal timestamps,
and nothing proved below depends on that tie order). -/
def sortPairsByVal : List (String × Int) → List (String × Int)
  | [] => []
  | a :: l => insertByVal a (sortPairsByVal l)

/-- The eviction step of `mark_posted`: when the dict holds more than
`MAX_POSTED_IDS` entries, keep the 400 entries with the largest timestamps. -/
def prune_posted (l : List (String × Int)) : List (String × Int) :=
  if MAX_POSTED_IDS < l.length then lastN 400 (sortPairsByVal l) else l

/-- Python `d[k] = v` on an (ordered) dict. -/
def dictSet (l : List (String × Int)) (k : String) (v : Int) : List (String × Int) :=
  if l.any (fun p => p.1 == k) then l.map (fun p => if p.1 == k then (k, v) else p)
  else l ++ [(k, v)]

/-- Python `lst[-n:] if len(lst) > n else lst`. -/
def trimTail (n : Nat) (l : List α) : List α := if n < l.length then lastN n l else l

/-- `State.mark_posted(uid, title, text)`; `now` stands for
`int(time.time())`. -/
def mark_posted (st : StateData) (uid title text : String) (now : Int) : StateData :=
  { posted_ids := dictSet (prune_posted st.posted_ids) uid now
    recent_titles := trimTail 50 (st.recent_titles ++ [title])
    recent_posts := trimTail 30 (st.recent_posts ++ [⟨title, strTake 1000 text, now⟩]) }

/-! ## Groq budget and `call_groq` -/

structure ModelConfig where
  name : String
  rpm : Nat
  tpm : Nat
  daily_tokens : Nat
  priority : Nat
deriving Repr, DecidableEq

/-- The `MODELS` table (verbatim). -/
def MODELS : List (String × ModelConfig) := [
  ("heavy", ⟨"llama-3.3-70b-versatile", 30, 6000, 100000, 1⟩),
  ("light", ⟨"llama-3.1-8b-instant", 30, 20000, 500000, 2⟩),
  ("fallback", ⟨"mixtral-8x7b-32768", 30, 5000, 100000, 3⟩)]

/-- `GroqBudget.can_use_model(model_key)`.  `used` models the
`data["daily_tokens"]` dict as a total lookup (`.get(name, 0)`); the float
comparison `(cfg.daily_tokens - used) > cfg.daily_tokens * 0.05` is modelled
exactly over `ℚ`. -/
def can_use_model (used : String → Nat) (model_key : String) : Bool :=
  match MODELS.find? (fun p => p.1 == model_key) with
  | none => false
  | some (_, cfg) =>
    decide (Rat.mul (qnat cfg.daily_tokens) (mkRat 5 100) <
      Rat.sub (qnat cfg.daily_tokens) (qnat (used cfg.name)))

/-- The model preference order of `call_groq`. -/
def groqOrder (model_pref : String) : List String :=
  if model_pref == "heavy" then ["heavy", "light", "fallback"]
  else ["light", "fallback", "heavy"]

/-- The retry loop of `call_groq` over a key order.  `attempt key` models one
chat-completion request against that model: `some (text, tokens)` on success,
`none` when the request raises (the `except` branch sleeps, logs and
continues).  Returns the result and the list of keys actually attempted. -/
def callGroqRun (used : String → Nat) (attempt : String → Option (String × Nat)) :
    List String → (String × Nat) × List String
  | [] => (("", 0), [])
  | key :: rest =>
    if can_use_model used key then
      match attempt key with
      | some res => (res, [key])
      | none =>
        let r := callGroqRun used attempt rest
        (r.1, key :: r.2)
    else callGroqRun used attempt rest

/-- `call_groq(prompt, model_pref, ...)` reduced to its control flow: the
prompt and token budget only influence `attempt`'s outcomes. -/
def call_groq (used : String → Nat) (attempt : String → Option (String × Nat))
    (model_pref : String) : String × Nat :=
  (callGroqRun used attempt (groqOrder model_pref)).1

/-! ## Fetching -/

/-- The pattern `<[^>]+>` of `clean_text`. -/
def tagRe : Re := rcat [.lit '<', rplus (.cls true [.ch '>']), .lit '>']

/-- `clean_text(text)`: drop HTML tags (each replaced by a space), unescape
HTML entities (`unesc` models `html.unescape`), collapse whitespace runs to
single spaces, strip. -/
def clean_text (unesc : String → String) (text : String) : String :=
  if text = "" then ""
  else
    let t1 := reSubSpace false false tagRe text.data
    let t2 := (unesc (String.mk t1)).data
    String.mk (stripWsL (reSubSpace false false rsp t2))

/-- One feedparser RSS entry, with the fields the script reads:
`entry.get('link')`, `entry.get('title', '')`, `entry.get('summary', '')`,
`entry.get('description', '')`, and `entry.content[0]['value']` when the
entry has a non-empty `content` list. -/
structure RssEntry where
  link : Option String
  title : String
  summary : String
  description : String
  content : Option String
deriving Repr, DecidableEq

structure NewsItem where
  type : String
  title : String
  text : String
  link : String
  source : String
  uid : String
deriving Repr, DecidableEq

/-- The per-entry candidate selection of `fetch_rss` (the HTTP fetch and feed
parse are modelled by the entry list; `md5hex` models
`hashlib.md5(link.encode()).hexdigest()`).  Entries without a link are
skipped; already-posted uids are skipped; the rest are filtered by
`passes_local_filters`. -/
def fetch_rss (md5hex : String → String) (unesc : String → String) (st : StateData)
    (entries : List RssEntry) (sourceName : String) : List NewsItem :=
  (entries.take 10).filterMap (fun entry =>
    match entry.link with
    | none => none
    | some link =>
      let uid := md5hex link
      if is_posted st uid then none
      else
        let title := entry.title
        let summary := clean_text unesc
          (if entry.summary ≠ "" then entry.summary else entry.description)
        let contentPart :=
          match entry.content with
          | some v => clean_text unesc v
          | none => ""
        let full_text := summary ++ " " ++ contentPart
        if passes_local_filters title full_text then
          some ⟨"news", title, full_text, link, sourceName, uid⟩
        else none)

/-- One YouTube feed entry with the fields the script reads. -/
structure YtEntry where
  yt_videoid : Option String
  title : String
  link : String
deriving Repr, DecidableEq

/-- The per-entry candidate selection of `fetch_youtube`.  `transcript vid`
models the fetched caption list; `none` models the transcript fetch raising
(the inner `except: pass`). -/
def fetch_youtube (transcript : String → Option (List String)) (st : StateData)
    (entries : List YtEntry) (channelName : String) : List NewsItem :=
  (entries.take 2).filterMap (fun entry =>
    match entry.yt_videoid with
    | none => none
    | some vid =>
      let uid := "yt_" ++ vid
      if is_posted st uid then none
      else
        match transcript vid with
        | none => none
        | some ts =>
          let full := " ".intercalate ts
          if passes_local_filters entry.title full then
            some ⟨"video", entry.title, strTake 5000 full, entry.link,
              "YT:" ++ channelName, uid⟩
          else none)

/-! ## Post generation and publication -/

/-- The source link suffix appended by `generate_post`. -/
def postSuffix (link : String) : String :=
  "\n\n🔗 <a href='" ++ link ++ "'>Источник</a>"

/-- The decision logic of `generate_post` applied to the LLM response `text`
(the article fetch, prompt construction and `call_groq` call only determine
`text`, which is universally quantified in the theorems): empty response,
`SKIP` responses and responses under 80 characters are dropped; a too-generic
response is cleaned, and dropped when the cleaned text lost more than 30 % of
the length or is still too generic; otherwise the link suffix is appended.
The result is layered like `is_too_generic`: the outer `none` is an
uncaught exception escaping `generate_post` (the `IndexError` of
`extract_advice_section` — `generate_post` has no handler, and `main` calls
it outside its `try`, so the run crashes); `some none` is a normal `return
None`; `some (some p)` is a returned post. -/
def generate_post (text link : String) : Option (Option String) :=
  if text = "" then some none
  else
    let text_clean := pyStrip text
    if pyUpper text_clean = "SKIP" ∨
        (strStarts "SKIP" (pyUpper text_clean) ∧ text_clean.length < 20) then some none
    else if text.length < 80 then some none
    else
      match is_too_generic text with
      | none => none
      | some true =>
        let cleaned := clean_banal_advice text
        if qnat cleaned.length < Rat.mul (qnat text.length) (mkRat 7 10) then some none
        else
          match is_too_generic cleaned with
          | none => none
          | some true => some none
          | some false => some (some (cleaned ++ postSuffix link))
      | some false => some (some (text ++ postSuffix link))

inductive PubAction where
  | textMsg (text : String)
  | photoMsg (imagePath : String) (caption : String)
deriving Repr, DecidableEq

/-- The publishing step of `main` for one generated post: posts longer than
`TEXT_ONLY_THRESHOLD` are sent as plain text without attempting an image;
otherwise `generate_image` is attempted (`imageResult` models its outcome)
and the post falls back to plain text when no image was produced.  The
boolean records whether `generate_image` was attempted. -/
def publishStep (post_text : String) (imageResult : Option String) : PubAction × Bool :=
  if TEXT_ONLY_THRESHOLD < post_text.length then (.textMsg post_text, false)
  else
    match imageResult with
    | some img => (.photoMsg img post_text, true)
    | none => (.textMsg post_text, true)

/-- `main`'s per-item publication guard: when `generate_post` raised (outer
`none`) the run crashed before any Telegram call; `if not post_text:` skips
the item (no Telegram call); otherwise the publishing step runs. -/
def mainPublish (post_text : Option (Option String)) (imageResult : Option String) :
    Option PubAction :=
  match post_text with
  | none => none
  | some none => none
  | some (some t) => if t = "" then none else some (publishStep t imageResult).1

/-! ## Generic helper lemmas -/

theorem listMapId {α : Type} {l : List α} {f : α → α} (h : ∀ c ∈ l, f c = c) :
    l.map f = l := by
  induction l with
  | nil => rfl
  | cons a t ih =>
    simp only [List.map_cons, h a (by simp), ih (fun c hc => h c (by simp [hc]))]

theorem findSomeNoneOfAll {α β : Type} (f : α → Option β) :
    ∀ l : List α, (∀ a, f a = none) → l.findSome? f = none := by
  intro l h
  induction l with
  | nil => rfl
  | cons a t ih => rw [List.findSome?_cons, h a, ih]

/-! ## `call_groq` lemmas and claims C4, C6 -/

theorem callGroqRun_tried (used : String → Nat) (attempt : String → Option (String × Nat)) :
    ∀ keys, ∀ k ∈ (callGroqRun used attempt keys).2, can_use_model used k = true := by
  intro keys
  induction keys with
  | nil => intro k hk; simp [callGroqRun] at hk
  | cons key rest ih =>
    intro k hk
    simp only [callGroqRun] at hk
    by_cases hc : can_use_model used key = true
    · rw [if_pos hc] at hk
      cases ha : attempt key with
      | some res =>
        rw [ha] at hk
        simp only [List.mem_singleton] at hk
        exact hk ▸ hc
      | none =>
        rw [ha] at hk
        simp only [List.mem_cons] at hk
        rcases hk with rfl | hk
        · exact hc
        · exact ih k hk
    · rw [if_neg hc] at hk
      exact ih k hk

theorem callGroqRun_fst (used : String → Nat) (attempt : String → Option (String × Nat)) :
    ∀ keys, (callGroqRun used attempt keys).1 =
      ((keys.filter (can_use_model used)).findSome? attempt).getD ("", 0) := by
  intro keys
  induction keys with
  | nil => rfl
  | cons key rest ih =>
    simp only [callGroqRun, List.filter_cons]
    by_cases hc : can_use_model used key = true
    · rw [if_pos hc, if_pos hc, List.findSome?_cons]
      cases ha : attempt key with
      | some res => rfl
      | none => exact ih
    · rw [if_neg hc, if_neg (by simp [hc])]
      exact ih

/-- C6.  Best-effort retries around the LLM HTTP calls: a request that raises
is modelled by `attempt key = none` and `call_groq` continues with the next
model of the preference order (`heavy, light, fallback`, or
`light, fallback, heavy` for a non-heavy preference); the result is the first
successful attempt among the budget-allowed models, and `("", 0)` when every
model is budget-blocked or fails, so the caller always receives a value. -/
theorem call_groq_best_effort (used : String → Nat)
    (attempt : String → Option (String × Nat)) (model_pref : String) :
    groqOrder "heavy" = ["heavy", "light", "fallback"] ∧
    groqOrder "light" = ["light", "fallback", "heavy"] ∧
    call_groq used attempt model_pref =
      (((groqOrder model_pref).filter (can_use_model used)).findSome? attempt).getD ("", 0) ∧
    ((∀ k, attempt k = none) → call_groq used attempt model_pref = ("", 0)) := by
  refine ⟨rfl, rfl, callGroqRun_fst used attempt _, fun hall => ?_⟩
  show (callGroqRun used attempt (groqOrder model_pref)).1 = ("", 0)
  rw [callGroqRun_fst used attempt _, findSomeNoneOfAll attempt _ hall]
  rfl

/-- Witness for C6 at a concrete failing oracle. -/
theorem call_groq_best_effort_witness :
    call_groq (fun _ => 0) (fun _ => none) "heavy" = ("", 0) :=
  (call_groq_best_effort (fun _ => 0) (fun _ => none) "heavy").2.2.2 (fun _ => rfl)

theorem qnat_cast (n : Nat) : qnat n = (n : ℚ) := by
  simp [qnat, Rat.mkRat_eq_div]

/-- C4.  Token budgeting: `can_use_model` accepts exactly the configured
models whose remaining daily budget (daily_tokens minus the tokens recorded
for today) strictly exceeds 5 % of `daily_tokens`; consequently a model whose
recorded usage has reached 95 % of its daily limit never appears among the
models `call_groq` actually attempts, whatever the key order and outcomes. -/
theorem can_use_model_budget (used : String → Nat) (model_key : String) :
    (can_use_model used model_key = true ↔
      ∃ cfg, (MODELS.find? (fun p => p.1 == model_key)).map Prod.snd = some cfg ∧
        Rat.mul (qnat cfg.daily_tokens) (mkRat 5 100) <
          Rat.sub (qnat cfg.daily_tokens) (qnat (used cfg.name))) ∧
    (∀ cfg (attempt : String → Option (String × Nat)) keys,
      (MODELS.find? (fun p => p.1 == model_key)).map Prod.snd = some cfg →
      Rat.mul (qnat cfg.daily_tokens) (mkRat 95 100) ≤ qnat (used cfg.name) →
      model_key ∉ (callGroqRun used attempt keys).2) := by
  constructor
  · unfold can_use_model
    cases hf : MODELS.find? (fun p => p.1 == model_key) with
    | none =>
      simp only [hf, Option.map_none']
      constructor
      · intro h; cases h
      · rintro ⟨cfg, hc, _⟩; cases hc
    | some pr =>
      simp only [hf, Option.map_some', decide_eq_true_eq]
      constructor
      · intro h; exact ⟨pr.2, rfl, h⟩
      · rintro ⟨cfg, hc, h⟩
        cases hc
        exact h
  · intro cfg attempt keys hf h95 hmem
    have hcu := callGroqRun_tried used attempt keys model_key hmem
    unfold can_use_model at hcu
    cases hfind : MODELS.find? (fun p => p.1 == model_key) with
    | none => rw [hfind] at hcu; cases hcu
    | some pr =>
      rw [hfind] at hcu hf
      obtain ⟨k, cfg'⟩ := pr
      simp only [Option.map_some', Option.some_inj] at hf
      simp only [decide_eq_true_eq] at hcu
      rw [hf] at hcu
      have e5 : (mkRat 5 100 : ℚ) = 1/20 := by norm_num [Rat.mkRat_eq_div]
      have e95 : (mkRat 95 100 : ℚ) = 19/20 := by norm_num [Rat.mkRat_eq_div]
      have hmul : ∀ a b : ℚ, Rat.mul a b = a * b := fun _ _ => rfl
      have hsub : ∀ a b : ℚ, Rat.sub a b = a - b := fun _ _ => rfl
      rw [hmul, hsub, e5, qnat_cast, qnat_cast] at hcu
      rw [hmul, e95, qnat_cast, qnat_cast] at h95
      have hd : (0 : ℚ) ≤ (cfg.daily_tokens : ℚ) := by positivity
      linarith

/-- Witness for C4: with 95 000 of 100 000 daily tokens recorded for the
heavy model, `call_groq` never attempts it. -/
theorem can_use_model_budget_witness :
    "heavy" ∉ (callGroqRun (fun _ => 95000) (fun _ => some ("x", 1))
      ["heavy", "light", "fallback"]).2 :=
  (can_use_model_budget (fun _ => 95000) "heavy").2
    ⟨"llama-3.3-70b-versatile", 30, 6000, 100000, 1⟩ (fun _ => some ("x", 1))
    ["heavy", "light", "fallback"] rfl (by decide)

/-! ## Claims C8 and C10 -/

/-- C8.  Image generation is optional and length-gated: a generated post
longer than `TEXT_ONLY_THRESHOLD` (700) characters is published as a plain
text message and `generate_image` is not attempted (second component
`false`); for a post of at most 700 characters `generate_image` is attempted,
and when it produces nothing the post is still published as a plain text
message. -/
theorem image_generation_gated (post : String) (imageResult : Option String) :
    (TEXT_ONLY_THRESHOLD < post.length →
      publishStep post imageResult = (.textMsg post, false)) ∧
    (post.length ≤ TEXT_ONLY_THRESHOLD →
      (publishStep post imageResult).2 = true ∧
      (imageResult = none → publishStep post imageResult = (.textMsg post, true))) := by
  constructor
  · intro h
    unfold publishStep
    rw [if_pos h]
  · intro h
    unfold publishStep
    rw [if_neg (Nat.not_lt.mpr h)]
    cases imageResult with
    | none => exact ⟨rfl, fun _ => rfl⟩
    | some img => exact ⟨rfl, fun hc => by cases hc⟩

/-- Witness for C8 at a 701-character post and at a short post without an
image. -/
theorem image_generation_gated_witness :
    publishStep (String.mk (List.replicate 701 'a')) (some "img.jpg") =
      (.textMsg (String.mk (List.replicate 701 'a')), false) ∧
    publishStep "ok" none = (.textMsg "ok", true) :=
  ⟨(image_generation_gated (String.mk (List.replicate 701 'a')) (some "img.jpg")).1
      (by simp [String.length, TEXT_ONLY_THRESHOLD]),
    ((image_generation_gated "ok" none).2 (by decide)).2 rfl⟩

theorem trimTail_length_le {α : Type} (n : Nat) (l : List α) : (trimTail n l).length ≤ n := by
  unfold trimTail lastN
  split
  · rw [List.length_drop]
    omega
  · rename_i h
    omega

theorem trimTail_suffix {α : Type} (n : Nat) (l : List α) : trimTail n l <:+ l := by
  unfold trimTail lastN
  split
  · exact List.drop_suffix _ _
  · exact List.suffix_refl l

theorem trimTail_mem_last {α : Type} (n : Nat) (hn : 0 < n) (l : List α) (a : α) :
    a ∈ trimTail n (l ++ [a]) := by
  unfold trimTail lastN
  split
  · rename_i h
    rw [List.length_append, List.length_singleton] at h ⊢
    rw [List.drop_append_of_le_length (by omega)]
    exact List.mem_append_right _ (by simp)
  · exact List.mem_append_right _ (by simp)

/-- C10.  Bounded recency windows: after any `mark_posted` call the state
keeps at most 50 recent titles and 30 recent posts, every stored post text is
capped at 1000 characters (given the standing invariant for the entries
already present), and both lists retain the most recently appended item —
they are suffixes of the appended lists and contain the new entry. -/
theorem mark_posted_windows (st : StateData) (uid title text : String) (now : Int) :
    (mark_posted st uid title text now).recent_titles.length ≤ 50 ∧
    (mark_posted st uid title text now).recent_posts.length ≤ 30 ∧
    ((∀ p ∈ st.recent_posts, p.text.length ≤ 1000) →
      ∀ p ∈ (mark_posted st uid title text now).recent_posts, p.text.length ≤ 1000) ∧
    (mark_posted st uid title text now).recent_titles <:+ (st.recent_titles ++ [title]) ∧
    title ∈ (mark_posted st uid title text now).recent_titles ∧
    (mark_posted st uid title text now).recent_posts <:+
      (st.recent_posts ++ [⟨title, strTake 1000 text, now⟩]) ∧
    (⟨title, strTake 1000 text, now⟩ : RecentPost) ∈
      (mark_posted st uid title text now).recent_posts := by
  refine ⟨trimTail_length_le 50 _, trimTail_length_le 30 _, ?_, trimTail_suffix 50 _,
    trimTail_mem_last 50 (by omega) _ _, trimTail_suffix 30 _,
    trimTail_mem_last 30 (by omega) _ _⟩
  intro hinv p hp
  have hsub := (trimTail_suffix 30 (st.recent_posts ++
    [(⟨title, strTake 1000 text, now⟩ : RecentPost)])).sublist.subset hp
  rcases List.mem_append.mp hsub with hmem | hmem
  · exact hinv p hmem
  · have hpe : p = ⟨title, strTake 1000 text, now⟩ := List.mem_singleton.mp hmem
    subst hpe
    show (String.mk (text.data.take 1000)).length ≤ 1000
    show (text.data.take 1000).length ≤ 1000
    exact List.length_take_le 1000 text.data

/-- Witness for C10 starting from the initial state. -/
theorem mark_posted_windows_witness :
    (⟨"t", strTake 1000 "body", 7⟩ : RecentPost) ∈
      (mark_posted initStateData "u" "t" "body" 7).recent_posts ∧
    (∀ p ∈ (mark_posted initStateData "u" "t" "body" 7).recent_posts,
        p.text.length ≤ 1000) = True :=
  ⟨(mark_posted_windows initStateData "u" "t" "body" 7).2.2.2.2.2.2,
    eq_true ((mark_posted_windows initStateData "u" "t" "body" 7).2.2.1
      (by intro p hp; cases hp))⟩

/-! ## Claim C1 -/

theorem fetch_rss_not_posted (md5hex unesc : String → String) (st : StateData)
    (entries : List RssEntry) (src : String) :
    ∀ it ∈ fetch_rss md5hex unesc st entries src, is_posted st it.uid = false := by
  intro it hit
  unfold fetch_rss at hit
  rw [List.mem_filterMap] at hit
  obtain ⟨entry, _hm, hf⟩ := hit
  dsimp only at hf
  split at hf
  · cases hf
  · rename_i x lk hlink
    split at hf
    · cases hf
    · rename_i hp
      have hb : is_posted st (md5hex lk) = false := by
        cases hval : is_posted st (md5hex lk) with
        | false => rfl
        | true => exact absurd hval hp
      split at hf <;> split at hf <;> (try cases hf) <;> exact hb

theorem fetch_youtube_not_posted (transcript : String → Option (List String))
    (st : StateData) (entries : List YtEntry) (chan : String) :
    ∀ it ∈ fetch_youtube transcript st entries chan, is_posted st it.uid = false := by
  intro it hit
  unfold fetch_youtube at hit
  rw [List.mem_filterMap] at hit
  obtain ⟨entry, _hm, hf⟩ := hit
  dsimp only at hf
  split at hf
  · cases hf
  · rename_i x vid hvid
    split at hf
    · cases hf
    · rename_i hp
      have hb : is_posted st ("yt_" ++ vid) = false := by
        cases hval : is_posted st ("yt_" ++ vid) with
        | false => rfl
        | true => exact absurd hval hp
      split at hf
      · cases hf
      · split at hf
        · cases hf
          exact hb
        · cases hf

/-- C1.  Previously-posted items are never republished: when `uid` is a key
of the state's `posted_ids` dict, `is_posted uid` returns `true`, and neither
`fetch_rss` (uids are `md5hex` of the entry link) nor `fetch_youtube` (uids
are `yt_<videoid>`) ever places an item with that uid in the candidate list,
so the main loop cannot generate or publish a post for it again. -/
theorem posted_items_never_republished (md5hex unesc : String → String)
    (transcript : String → Option (List String)) (st : StateData)
    (entries : List RssEntry) (yentries : List YtEntry) (src chan uid : String)
    (h : uid ∈ st.posted_ids.map Prod.fst) :
    is_posted st uid = true ∧
    (∀ it ∈ fetch_rss md5hex unesc st entries src, it.uid ≠ uid) ∧
    (∀ it ∈ fetch_youtube transcript st yentries chan, it.uid ≠ uid) := by
  have hpost : is_posted st uid = true := by
    rw [is_posted, List.any_eq_true]
    obtain ⟨p, hp, he⟩ := List.mem_map.mp h
    exact ⟨p, hp, by simp [he]⟩
  refine ⟨hpost, ?_, ?_⟩
  · intro it hit heq
    have hn := fetch_rss_not_posted md5hex unesc st entries src it hit
    rw [heq, hpost] at hn
    cases hn
  · intro it hit heq
    have hn := fetch_youtube_not_posted transcript st yentries chan it hit
    rw [heq, hpost] at hn
    cases hn

/-- Witness for C1 at a concrete one-entry state and feeds. -/
theorem posted_items_never_republished_witness :
    is_posted ⟨[("u1", 5)], [], []⟩ "u1" = true ∧
    "u1" ∉ (fetch_rss (fun _ => "u1") (fun s => s) ⟨[("u1", 5)], [], []⟩
      [⟨some "http://a", "t", "s", "d", none⟩] "Src").map NewsItem.uid ∧
    "u1" ∉ (fetch_youtube (fun _ => some ["w"]) ⟨[("u1", 5)], [], []⟩
      [⟨some "abc", "t", "l"⟩] "Chan").map NewsItem.uid := by
  have hth := posted_items_never_republished (fun _ => "u1") (fun s => s)
    (fun _ => some ["w"]) ⟨[("u1", 5)], [], []⟩
    [⟨some "http://a", "t", "s", "d", none⟩] [⟨some "abc", "t", "l"⟩]
    "Src" "Chan" "u1" (by decide)
  refine ⟨hth.1, ?_, ?_⟩
  · intro hm
    obtain ⟨it, hit, he⟩ := List.mem_map.mp hm
    exact hth.2.1 it hit he
  · intro hm
    obtain ⟨it, hit, he⟩ := List.mem_map.mp hm
    exact hth.2.2 it hit he

/-! ## Claim C3 -/

/-- C3.  Keyword-list candidate filtering: `passes_local_filters` returns
`true` only if the lowercased concatenation `title + " " + text` contains no
`STOP_WORDS` entry, contains at least one `SECURITY_KEYWORDS` entry, any
`GADGET_PATTERNS` match in it is accompanied by a security-context keyword,
and `len(text)` is at least 50; and whenever the concatenation contains no
`SECURITY_KEYWORDS` entry the function returns `false`. -/
theorem passes_local_filters_only_if (title text : String) :
    (passes_local_filters title text = true →
      (∀ stop ∈ STOP_WORDS, strIn stop (pyLower (title ++ " " ++ text)) = false) ∧
      (∃ kw ∈ SECURITY_KEYWORDS, strIn kw (pyLower (title ++ " " ++ text)) = true) ∧
      ((∃ p ∈ GADGET_PATTERNS,
          reTest false false p (pyLower (title ++ " " ++ text)).data = true) →
        ∃ kw ∈ SECURITY_CONTEXT_KEYWORDS,
          strIn kw (pyLower (title ++ " " ++ text)) = true) ∧
      50 ≤ text.length) ∧
    ((∀ kw ∈ SECURITY_KEYWORDS, strIn kw (pyLower (title ++ " " ++ text)) = false) →
      passes_local_filters title text = false) := by
  have main : passes_local_filters title text = true →
      (∀ stop ∈ STOP_WORDS, strIn stop (pyLower (title ++ " " ++ text)) = false) ∧
      (∃ kw ∈ SECURITY_KEYWORDS, strIn kw (pyLower (title ++ " " ++ text)) = true) ∧
      ((∃ p ∈ GADGET_PATTERNS,
          reTest false false p (pyLower (title ++ " " ++ text)).data = true) →
        ∃ kw ∈ SECURITY_CONTEXT_KEYWORDS,
          strIn kw (pyLower (title ++ " " ++ text)) = true) ∧
      50 ≤ text.length := by
    intro h
    simp only [passes_local_filters] at h
    by_cases c1 : (STOP_WORDS.any fun stop => strIn stop (pyLower (title ++ " " ++ text))) = true
    · rw [if_pos c1] at h; cases h
    · rw [if_neg c1] at h
      by_cases c2 : (GADGET_PATTERNS.any fun p =>
          reTest false false p (pyLower title).data) = true
      · rw [if_pos c2] at h; cases h
      · rw [if_neg c2] at h
        by_cases c3 : (GADGET_PATTERNS.any fun p =>
            reTest false false p (pyLower (title ++ " " ++ text)).data) = true ∧
            ¬ (SECURITY_CONTEXT_KEYWORDS.any fun kw =>
              strIn kw (pyLower (title ++ " " ++ text))) = true
        · rw [if_pos c3] at h; cases h
        · rw [if_neg c3] at h
          by_cases c4 : ¬ (SECURITY_KEYWORDS.any fun kw =>
              strIn kw (pyLower (title ++ " " ++ text))) = true
          · rw [if_pos c4] at h; cases h
          · rw [if_neg c4] at h
            by_cases c5 : text.length < 50
            · rw [if_pos c5] at h; cases h
            · refine ⟨?_, ?_, ?_, by omega⟩
              · intro s hs
                cases hval : strIn s (pyLower (title ++ " " ++ text)) with
                | false => rfl
                | true => exact absurd (List.any_eq_true.mpr ⟨s, hs, hval⟩) c1
              · rw [not_not] at c4
                exact List.any_eq_true.mp c4
              · intro ⟨p, hp, hm⟩
                by_cases hctx : (SECURITY_CONTEXT_KEYWORDS.any fun kw =>
                    strIn kw (pyLower (title ++ " " ++ text))) = true
                · exact List.any_eq_true.mp hctx
                · exact absurd ⟨List.any_eq_true.mpr ⟨p, hp, hm⟩, hctx⟩ c3
  refine ⟨main, fun hall => ?_⟩
  cases hval : passes_local_filters title text with
  | false => rfl
  | true =>
    obtain ⟨kw, hkw, htrue⟩ := (main hval).2.1
    rw [hall kw hkw] at htrue
    cases htrue

/-- Witness for C3 at a passing security item and at a non-security item. -/
theorem passes_local_filters_only_if_witness :
    50 ≤ ("A malware campaign attacked many Windows computers today." : String).length ∧
    passes_local_filters "hi" "x" = false :=
  ⟨((passes_local_filters_only_if "Critical malware attack"
      "A malware campaign attacked many Windows computers today.").1
      (by decide)).2.2.2,
    (passes_local_filters_only_if "hi" "x").2 (by decide)⟩

/-! ## Claim C7 -/

/-- C7.  Regex-based banality detection rejects generic posts: whenever the
LLM response is too generic (`is_too_generic` returns `True`) and the
cleaned text either lost more than 30 % of the length or is still too
generic, `generate_post` returns `None` and `main` publishes nothing for
that item; and any text with two or more `BANNED_PHRASES` hits on which the
advice-section extraction returns normally satisfies `is_too_generic`
(rule 1 of the source).  The extraction side condition is necessary: the
extraction runs before rule 1, and its sixth pattern has no capture group,
so when that pattern gives the first match `match.group(1)` raises
`IndexError` instead of rule 1 returning `True`
(see `banality_raises_counterexample`). -/
theorem banality_rejects_generic_posts (t link : String) (imageResult : Option String) :
    (is_too_generic t = some true →
      (qnat (clean_banal_advice t).length < Rat.mul (qnat t.length) (mkRat 7 10) ∨
        is_too_generic (clean_banal_advice t) = some true) →
      generate_post t link = some none ∧
      mainPublish (generate_post t link) imageResult = none) ∧
    (2 ≤ BANNED_PHRASES.countP (fun p => strIn p (pyLower t)) →
      extract_advice_section t ≠ none →
      is_too_generic t = some true) := by
  constructor
  · intro hg hcl
    have hnone : generate_post t link = some none := by
      simp only [generate_post]
      by_cases e1 : t = ""
      · rw [if_pos e1]
      · rw [if_neg e1]
        by_cases e2 : pyUpper (pyStrip t) = "SKIP" ∨
            (strStarts "SKIP" (pyUpper (pyStrip t)) = true ∧ (pyStrip t).length < 20)
        · rw [if_pos e2]
        · rw [if_neg e2]
          by_cases e3 : t.length < 80
          · rw [if_pos e3]
          · rw [if_neg e3]
            simp only [hg]
            rcases hcl with hl | hr
            · rw [if_pos hl]
            · by_cases e4 : qnat (clean_banal_advice t).length <
                  Rat.mul (qnat t.length) (mkRat 7 10)
              · rw [if_pos e4]
              · rw [if_neg e4]
                simp only [hr]
    exact ⟨hnone, by rw [hnone]; rfl⟩
  · intro h2 hne
    rcases hadv : extract_advice_section t with _ | a
    · exact absurd hadv hne
    · simp only [is_too_generic, hadv]
      rw [if_pos h2]

/-- C7 counterexample: a text with two banned phrases on which the sixth
advice pattern gives the first advice match — the extraction raises
`IndexError` (the pattern has no capture group), so `is_too_generic`
propagates the exception instead of returning `True` by rule 1. -/
theorem banality_raises_counterexample :
    2 ≤ BANNED_PHRASES.countP (fun p => strIn p
      (pyLower "будьте бдительны. используйте антивирус. • Конкретное действие")) ∧
    is_too_generic "будьте бдительны. используйте антивирус. • Конкретное действие" =
      none :=
  ⟨by decide, by decide⟩

/-- Witness for C7 at a concrete two-banality LLM response (one on which the
advice extraction returns normally). -/
theorem banality_rejects_generic_posts_witness :
    is_too_generic "будьте бдительны\nиспользуйте антивирус" = some true ∧
    generate_post "будьте бдительны\nиспользуйте антивирус" "http://x" = some none ∧
    mainPublish (generate_post "будьте бдительны\nиспользуйте антивирус" "http://x")
      none = none := by
  have h1 := (banality_rejects_generic_posts
    "будьте бдительны\nиспользуйте антивирус" "http://x" none).2 (by decide) (by decide)
  have h2 := (banality_rejects_generic_posts
    "будьте бдительны\nиспользуйте антивирус" "http://x" none).1 h1 (Or.inl (by decide))
  exact ⟨h1, h2.1, h2.2⟩

/-! ## Claim C2 -/

/-- C2.  Duplicate detection by string similarity on titles and entities:
`is_duplicate` returns `true` exactly when some title among the last 30
`recent_titles` has a ratio on the normalized titles strictly above 0.65 with
the new title, or some post among the last 20 `recent_posts` has
`calculate_similarity` strictly above 0.5 with the new item; moreover two
items whose extracted entity sets share a `CVE-` identifier get
`calculate_similarity` exactly 1.0, and such an item within the recent-posts
window is flagged as a duplicate.  `ratioFn` models
`difflib.SequenceMatcher(...).ratio()` and is arbitrary. -/
theorem is_duplicate_characterization (ratioFn : String → String → ℚ)
    (st : StateData) (title text : String) :
    (is_duplicate ratioFn st title text = true ↔
      (∃ old ∈ lastN 30 st.recent_titles,
        mkRat 65 100 < ratioFn (normalize_title title) (normalize_title old)) ∨
      (∃ p ∈ lastN 20 st.recent_posts,
        mkRat 1 2 < calculate_similarity ratioFn title text p.title p.text)) ∧
    (∀ t2 x2 e, e ∈ extract_key_entities (title ++ " " ++ text) →
      e ∈ extract_key_entities (t2 ++ " " ++ x2) → strStarts "CVE-" e = true →
      calculate_similarity ratioFn title text t2 x2 = mkRat 1 1) ∧
    (∀ p ∈ lastN 20 st.recent_posts,
      (∃ e, e ∈ extract_key_entities (title ++ " " ++ text) ∧
        e ∈ extract_key_entities (p.title ++ " " ++ p.text) ∧
        strStarts "CVE-" e = true) →
      is_duplicate ratioFn st title text = true) := by
  have hcve : ∀ t2 x2 e, e ∈ extract_key_entities (title ++ " " ++ text) →
      e ∈ extract_key_entities (t2 ++ " " ++ x2) → strStarts "CVE-" e = true →
      calculate_similarity ratioFn title text t2 x2 = mkRat 1 1 := by
    intro t2 x2 e h1 h2 hcv
    have hne1 := List.ne_nil_of_mem h1
    have hne2 := List.ne_nil_of_mem h2
    have hc1 : e ∈ (extract_key_entities (title ++ " " ++ text)).filter
        (fun e => strStarts "CVE-" e) := List.mem_filter.mpr ⟨h1, hcv⟩
    have hc2 : e ∈ (extract_key_entities (t2 ++ " " ++ x2)).filter
        (fun e => strStarts "CVE-" e) := List.mem_filter.mpr ⟨h2, hcv⟩
    simp only [calculate_similarity]
    rw [if_pos ⟨hne1, hne2⟩, if_pos ⟨List.ne_nil_of_mem hc1, List.ne_nil_of_mem hc2,
      List.any_eq_true.mpr ⟨e, hc1, by simpa using hc2⟩⟩]
  have hiff : is_duplicate ratioFn st title text = true ↔
      (∃ old ∈ lastN 30 st.recent_titles,
        mkRat 65 100 < ratioFn (normalize_title title) (normalize_title old)) ∨
      (∃ p ∈ lastN 20 st.recent_posts,
        mkRat 1 2 < calculate_similarity ratioFn title text p.title p.text) := by
    simp only [is_duplicate]
    by_cases hA : ((lastN 30 st.recent_titles).any fun old =>
        decide (mkRat 65 100 < ratioFn (normalize_title title) (normalize_title old))) = true
    · rw [if_pos hA]
      refine ⟨fun _ => Or.inl ?_, fun _ => rfl⟩
      obtain ⟨old, hm, hd⟩ := List.any_eq_true.mp hA
      exact ⟨old, hm, of_decide_eq_true hd⟩
    · rw [if_neg hA]
      constructor
      · intro hB
        obtain ⟨p, hm, hd⟩ := List.any_eq_true.mp hB
        exact Or.inr ⟨p, hm, of_decide_eq_true hd⟩
      · rintro (⟨old, hm, hd⟩ | ⟨p, hm, hd⟩)
        · exact absurd (List.any_eq_true.mpr ⟨old, hm, decide_eq_true hd⟩) hA
        · exact List.any_eq_true.mpr ⟨p, hm, decide_eq_true hd⟩
  refine ⟨hiff, hcve, ?_⟩
  intro p hp ⟨e, he1, he2, hcv⟩
  refine hiff.mpr (Or.inr ⟨p, hp, ?_⟩)
  rw [hcve p.title p.text e he1 he2 hcv]
  decide

/-- Witness for C2: two short items sharing `CVE-2024-0001` get similarity
1.0 under the zero ratio oracle and are flagged when one is a recent post. -/
theorem is_duplicate_characterization_witness :
    calculate_similarity (fun _ _ => 0) "CVE-2024-0001" "" "see CVE-2024-0001" "" =
      mkRat 1 1 ∧
    is_duplicate (fun _ _ => 0) ⟨[], [], [⟨"see CVE-2024-0001", "", 3⟩]⟩
      "CVE-2024-0001" "" = true := by
  have hth := is_duplicate_characterization (fun _ _ => 0)
    ⟨[], [], [⟨"see CVE-2024-0001", "", 3⟩]⟩ "CVE-2024-0001" ""
  refine ⟨hth.2.1 "see CVE-2024-0001" "" "CVE-2024-0001" (by decide) (by decide)
    (by decide), ?_⟩
  exact hth.2.2 ⟨"see CVE-2024-0001", "", 3⟩ (by decide)
    ⟨"CVE-2024-0001", by decide, by decide, by decide⟩

/-! ## Claim C5 -/

theorem insertByVal_perm (a : String × Int) (l : List (String × Int)) :
    List.Perm (insertByVal a l) (a :: l) := by
  induction l with
  | nil => rfl
  | cons b t ih =>
    unfold insertByVal
    split
    · rfl
    · exact ((ih.cons b).trans (List.Perm.swap a b t))

theorem sortPairsByVal_perm (l : List (String × Int)) : List.Perm (sortPairsByVal l) l := by
  induction l with
  | nil => rfl
  | cons a t ih => exact (insertByVal_perm a (sortPairsByVal t)).trans (ih.cons a)

theorem insertByVal_pairwise (a : String × Int) (l : List (String × Int))
    (h : l.Pairwise (fun p q => p.2 ≤ q.2)) :
    (insertByVal a l).Pairwise (fun p q => p.2 ≤ q.2) := by
  induction l with
  | nil => simp [insertByVal]
  | cons b t ih =>
    unfold insertByVal
    rcases List.pairwise_cons.mp h with ⟨hb, ht⟩
    split
    · rename_i hab
      exact List.pairwise_cons.mpr ⟨by
        intro q hq
        rcases List.mem_cons.mp hq with rfl | hq
        · exact hab
        · exact le_trans hab (hb q hq), h⟩
    · rename_i hab
      refine List.pairwise_cons.mpr ⟨?_, ih ht⟩
      intro q hq
      rcases List.mem_cons.mp ((insertByVal_perm a t).mem_iff.mp hq) with rfl | hq2
      · omega
      · exact hb q hq2

theorem sortPairsByVal_pairwise (l : List (String × Int)) :
    (sortPairsByVal l).Pairwise (fun p q => p.2 ≤ q.2) := by
  induction l with
  | nil => exact List.Pairwise.nil
  | cons a t ih => exact insertByVal_pairwise a (sortPairsByVal t) ih

theorem dictSet_length_le (l : List (String × Int)) (k : String) (v : Int) :
    (dictSet l k v).length ≤ l.length + 1 := by
  unfold dictSet
  split
  · rw [List.length_map]
    omega
  · rw [List.length_append]
    simp

theorem prune_posted_length_le (l : List (String × Int)) :
    (prune_posted l).length ≤ MAX_POSTED_IDS := by
  unfold prune_posted lastN
  split
  · rename_i h
    rw [List.length_drop]
    have := (sortPairsByVal_perm l).length_eq
    unfold MAX_POSTED_IDS at h ⊢
    omega
  · rename_i h
    omega

/-- C5 (amended).  The posted-ids store is a JSON dict capped by size: the
pruning check of `mark_posted` runs before the insertion, so one call can
leave `MAX_POSTED_IDS + 1 = 501` entries — the bound after every call is 501,
not 500 (see `posted_ids_cap_counterexample`).  When eviction does happen it
keeps the entries with the most recent timestamps: every evicted entry's
timestamp is at most every surviving entry's timestamp. -/
theorem posted_ids_capped (st : StateData) (uid title text : String) (now : Int) :
    (mark_posted st uid title text now).posted_ids.length ≤ MAX_POSTED_IDS + 1 ∧
    (∀ p ∈ st.posted_ids, p ∉ prune_posted st.posted_ids →
      ∀ q ∈ prune_posted st.posted_ids, p.2 ≤ q.2) := by
  constructor
  · calc (dictSet (prune_posted st.posted_ids) uid now).length
        ≤ (prune_posted st.posted_ids).length + 1 := dictSet_length_le _ _ _
      _ ≤ MAX_POSTED_IDS + 1 := by
          have := prune_posted_length_le st.posted_ids
          omega
  · intro p hp hnp q hq
    unfold prune_posted at hnp hq
    by_cases hlen : MAX_POSTED_IDS < st.posted_ids.length
    · rw [if_pos hlen] at hnp hq
      unfold lastN at hnp hq
      set sorted := sortPairsByVal st.posted_ids with hs
      set k := sorted.length - 400 with hk
      have hmem : p ∈ sorted := (sortPairsByVal_perm st.posted_ids).mem_iff.mpr hp
      have hmem2 : p ∈ sorted.take k ++ sorted.drop k := by
        rw [List.take_append_drop k sorted]
        exact hmem
      have htake : p ∈ sorted.take k := by
        rcases List.mem_append.mp hmem2 with h | h
        · exact h
        · exact absurd h hnp
      have hpair := sortPairsByVal_pairwise st.posted_ids
      rw [← hs, ← List.take_append_drop k sorted, List.pairwise_append] at hpair
      exact hpair.2.2 p htake q hq
    · rw [if_neg hlen] at hnp
      exact absurd hp hnp

/-- The uid scheme of the C5 counterexample run: 501 distinct one-character
strings. -/
def c5Uid (n : Nat) : String := String.mk [Char.ofNat (1000 + n)]

/-- The state after `k` `mark_posted` calls with fresh uids, starting from the
initial state. -/
def c5Fold (k : Nat) : StateData :=
  ((List.range k).map c5Uid).foldl (fun st u => mark_posted st u "t" "" 0) initStateData

theorem c5Uid_inj {m n : Nat} (hm : m < 50000) (hn : n < 50000)
    (h : c5Uid m = c5Uid n) : m = n := by
  unfold c5Uid at h
  have hc : Char.ofNat (1000 + m) = Char.ofNat (1000 + n) := by
    injection h with h'
    injection h'
  have hv : ∀ j : Nat, j < 50000 → ((1000 + j).isValidChar) := by
    intro j hj
    exact Or.inl (by omega)
  have := congrArg Char.toNat hc
  rw [toNat_ofNat_valid _ (hv m hm), toNat_ofNat_valid _ (hv n hn)] at this
  omega

theorem mark_posted_posted_ids (st : StateData) (uid title text : String) (now : Int) :
    (mark_posted st uid title text now).posted_ids =
      dictSet (prune_posted st.posted_ids) uid now := rfl

theorem c5Fold_posted : ∀ k, k ≤ 501 →
    (c5Fold k).posted_ids = (List.range k).map (fun n => (c5Uid n, (0 : Int))) := by
  intro k
  induction k with
  | zero => intro _; rfl
  | succ k ih =>
    intro hk
    have hprev := ih (by omega)
    unfold c5Fold at hprev ⊢
    rw [List.range_succ, List.map_append, List.foldl_append]
    simp only [List.map_cons, List.map_nil, List.foldl_cons, List.foldl_nil]
    rw [mark_posted_posted_ids]
    rw [hprev]
    have hlen : ((List.range k).map (fun n => (c5Uid n, (0 : Int)))).length = k := by
      rw [List.length_map, List.length_range]
    have hnoprune : prune_posted ((List.range k).map (fun n => (c5Uid n, (0 : Int)))) =
        (List.range k).map (fun n => (c5Uid n, (0 : Int))) := by
      unfold prune_posted
      rw [if_neg (by rw [hlen]; unfold MAX_POSTED_IDS; omega)]
    rw [hnoprune]
    have hfresh : (((List.range k).map (fun n => (c5Uid n, (0 : Int)))).any
        (fun p => p.1 == c5Uid k)) = false := by
      rw [List.any_eq_false]
      intro p hp
      obtain ⟨n, hn, rfl⟩ := List.mem_map.mp hp
      have hnk : n < k := List.mem_range.mp hn
      have hne : c5Uid n ≠ c5Uid k := fun he =>
        absurd (c5Uid_inj (show n < 50000 by omega) (show k < 50000 by omega) he)
          (by omega)
      intro he
      exact hne (eq_of_beq he)
    unfold dictSet
    rw [if_neg (by rw [hfresh]; exact Bool.false_ne_true)]
    rw [List.map_append]
    rfl

/-- C5 counterexample: starting from the initial state, 501 `mark_posted`
calls with distinct uids leave 501 entries in `posted_ids`, refuting the
claimed bound of `MAX_POSTED_IDS` (500) entries after every call. -/
theorem posted_ids_cap_counterexample :
    MAX_POSTED_IDS < (c5Fold 501).posted_ids.length := by
  rw [c5Fold_posted 501 (by omega), List.length_map, List.length_range]
  unfold MAX_POSTED_IDS
  omega

/-- A 501-entry state with ascending timestamps, for the C5 witness. -/
def c5WitState : StateData :=
  ⟨(List.range 501).map (fun n => (c5Uid n, Int.ofNat n)), [], []⟩

/-- Witness for the amended C5: the oldest entry of a 501-entry dict is
evicted and its timestamp is at most that of a surviving entry. -/
theorem posted_ids_capped_witness :
    (mark_posted c5WitState "z" "t" "" 501).posted_ids.length ≤ MAX_POSTED_IDS + 1 ∧
    ((0 : Int) ≤ 500) :=
  ⟨(posted_ids_capped c5WitState "z" "t" "" 501).1,
    (posted_ids_capped c5WitState "z" "t" "" 501).2 (c5Uid 0, 0) (by decide) (by decide)
      (c5Uid 500, 500) (by decide)⟩

/-! ## Claim C9 -/

theorem wordsOfAux_nil (cur : List Char) :
    wordsOfAux [] cur = if cur.isEmpty then [] else [cur.reverse] := by
  rw [wordsOfAux]

theorem wordsOfAux_cons_nospace (c : Char) (cs cur : List Char) (h : pySpace c = false) :
    wordsOfAux (c :: cs) cur = wordsOfAux cs (c :: cur) := by
  conv_lhs => rw [wordsOfAux]
  rw [if_neg (by rw [h]; exact Bool.false_ne_true)]

theorem wordsOfAux_cons_space (c : Char) (cs cur : List Char) (h : pySpace c = true) :
    wordsOfAux (c :: cs) cur =
      if cur.isEmpty then wordsOfAux cs [] else cur.reverse :: wordsOfAux cs [] := by
  conv_lhs => rw [wordsOfAux]
  rw [if_pos h]

theorem wordsOfAux_word (w : List Char) (hw : ∀ c ∈ w, pySpace c = false) :
    ∀ r cur, wordsOfAux (w ++ r) cur = wordsOfAux r (w.reverse ++ cur) := by
  induction w with
  | nil => intro r cur; simp
  | cons a w' ih =>
    intro r cur
    have ha : pySpace a = false := hw a (by simp)
    have hw' : ∀ c ∈ w', pySpace c = false := fun c hc => hw c (by simp [hc])
    show wordsOfAux (a :: (w' ++ r)) cur = wordsOfAux r ((a :: w').reverse ++ cur)
    rw [wordsOfAux_cons_nospace a _ _ ha, ih hw' r (a :: cur)]
    congr 1
    simp

theorem wordsOf_joinSep (ws : List (List Char))
    (h : ∀ w ∈ ws, w ≠ [] ∧ ∀ c ∈ w, pySpace c = false) :
    wordsOf (joinSep ' ' ws) = ws := by
  induction ws with
  | nil => rfl
  | cons w t ih =>
    obtain ⟨hne, hns⟩ := h w (by simp)
    have hrevne : ¬ (w.reverse.isEmpty = true) := by
      simp only [List.isEmpty_iff, List.reverse_eq_nil_iff]
      exact hne
    cases t with
    | nil =>
      show wordsOf w = [w]
      unfold wordsOf
      have hstep := wordsOfAux_word w hns [] []
      rw [List.append_nil] at hstep
      rw [hstep, List.append_nil, wordsOfAux_nil, if_neg hrevne, List.reverse_reverse]
    | cons w2 rest =>
      show wordsOf (w ++ ' ' :: joinSep ' ' (w2 :: rest)) = w :: w2 :: rest
      unfold wordsOf
      rw [wordsOfAux_word w hns _ [], List.append_nil]
      rw [wordsOfAux_cons_space ' ' _ _ (by decide)]
      rw [if_neg hrevne, List.reverse_reverse]
      have hrest := ih (fun w' hw' => h w' (by simp [hw']))
      unfold wordsOf at hrest
      rw [hrest]

theorem wordsOfAux_chars : ∀ (l cur : List Char), (∀ c ∈ cur, pySpace c = false) →
    ∀ w ∈ wordsOfAux l cur, ∀ c ∈ w, pySpace c = false ∧ (c ∈ l ∨ c ∈ cur) := by
  intro l
  induction l with
  | nil =>
    intro cur hcur w hw c hc
    rw [wordsOfAux_nil] at hw
    split at hw
    · cases hw
    · rw [List.mem_singleton] at hw
      subst hw
      rw [List.mem_reverse] at hc
      exact ⟨hcur c hc, Or.inr hc⟩
  | cons c0 cs ih =>
    intro cur hcur w hw c hc
    by_cases hs : pySpace c0 = true
    · rw [wordsOfAux_cons_space c0 cs cur hs] at hw
      split at hw
      · have hrec := ih [] (by intro c hc; cases hc) w hw c hc
        have hcs : c ∈ cs := hrec.2.resolve_right (by intro hh; cases hh)
        exact ⟨hrec.1, Or.inl (List.mem_cons_of_mem _ hcs)⟩
      · rcases List.mem_cons.mp hw with rfl | hw2
        · rw [List.mem_reverse] at hc
          exact ⟨hcur c hc, Or.inr hc⟩
        · have hrec := ih [] (by intro c hc; cases hc) w hw2 c hc
          have hcs : c ∈ cs := hrec.2.resolve_right (by intro hh; cases hh)
          exact ⟨hrec.1, Or.inl (List.mem_cons_of_mem _ hcs)⟩
    · have hc0 : pySpace c0 = false := by
        cases hval : pySpace c0
        · rfl
        · exact absurd hval hs
      rw [wordsOfAux_cons_nospace c0 cs cur hc0] at hw
      have hcur' : ∀ c ∈ c0 :: cur, pySpace c = false := by
        intro c hc
        rcases List.mem_cons.mp hc with rfl | hc2
        · exact hc0
        · exact hcur c hc2
      have hrec := ih (c0 :: cur) hcur' w hw c hc
      refine ⟨hrec.1, ?_⟩
      rcases hrec.2 with h | h
      · exact Or.inl (List.mem_cons_of_mem _ h)
      · rcases List.mem_cons.mp h with rfl | h2
        · exact Or.inl (List.mem_cons_self _ _)
        · exact Or.inr h2

theorem joinSep_chars (sep : Char) : ∀ (ws : List (List Char)) (c : Char),
    c ∈ joinSep sep ws → c = sep ∨ ∃ w ∈ ws, c ∈ w := by
  intro ws
  induction ws with
  | nil => intro c hc; cases hc
  | cons w t ih =>
    intro c hc
    cases t with
    | nil =>
      exact Or.inr ⟨w, by simp, hc⟩
    | cons w2 rest =>
      have hc2 : c ∈ w ++ sep :: joinSep sep (w2 :: rest) := hc
      rcases List.mem_append.mp hc2 with h | h
      · exact Or.inr ⟨w, by simp, h⟩
      · rcases List.mem_cons.mp h with rfl | h2
        · exact Or.inl rfl
        · rcases ih c h2 with h3 | ⟨w', hw', hcw'⟩
          · exact Or.inl h3
          · exact Or.inr ⟨w', by simp [hw'], hcw'⟩

/-- The character-level facts about every word `normalize_title` keeps. -/
theorem normWords_chars (s : String) :
    ∀ w ∈ normWords s, w ≠ [] ∧
      ∀ c ∈ w, pySpace c = false ∧ keepWordSpace c = true ∧ lowerChar c = c := by
  intro w hw
  unfold normWords at hw
  obtain ⟨hwords, hp⟩ := List.mem_filter.mp hw
  rw [decide_eq_true_eq] at hp
  have hne : w ≠ [] := by
    intro he
    rw [he] at hp
    simp at hp
  refine ⟨hne, ?_⟩
  intro c hc
  have hchar := wordsOfAux_chars ((pyLowerL s.data).filter keepWordSpace) []
    (by intro c hc; cases hc) w hwords c hc
  have hcmem : c ∈ (pyLowerL s.data).filter keepWordSpace :=
    hchar.2.resolve_right (by intro hh; cases hh)
  obtain ⟨hinlower, hkeep⟩ := List.mem_filter.mp hcmem
  obtain ⟨c', _, rfl⟩ := List.mem_map.mp hinlower
  exact ⟨hchar.1, hkeep, lowerChar_idem c'⟩

theorem normWords_joinSep (ws : List (List Char))
    (h : ∀ w ∈ ws, w ≠ [] ∧
      (∀ c ∈ w, pySpace c = false ∧ keepWordSpace c = true ∧ lowerChar c = c) ∧
      decide (¬ (NORM_TITLE_STOP.any fun st => st.data == w) = true ∧ 2 < w.length) = true) :
    normWords (String.mk (joinSep ' ' ws)) = ws := by
  unfold normWords
  have hfix : pyLowerL (joinSep ' ' ws) = joinSep ' ' ws := by
    apply listMapId
    intro c hc
    rcases joinSep_chars ' ' ws c hc with rfl | ⟨w, hw, hcw⟩
    · decide
    · exact ((h w hw).2.1 c hcw).2.2
  have hkeep : (joinSep ' ' ws).filter keepWordSpace = joinSep ' ' ws := by
    rw [List.filter_eq_self]
    intro c hc
    rcases joinSep_chars ' ' ws c hc with rfl | ⟨w, hw, hcw⟩
    · decide
    · exact ((h w hw).2.1 c hcw).2.1
  show (wordsOf ((pyLowerL (joinSep ' ' ws)).filter keepWordSpace)).filter _ = ws
  rw [hfix, hkeep]
  rw [wordsOf_joinSep ws (fun w hw => ⟨(h w hw).1, fun c hc => ((h w hw).2.1 c hc).1⟩)]
  rw [List.filter_eq_self]
  intro w hw
  exact (h w hw).2.2

/-- C9.  `normalize_title` is idempotent, and its output is exactly the word
list `normWords`: splitting the output on whitespace recovers `normWords s`
(so the output is those words joined by single spaces), and every kept word
has length above 2, is not in the stop-word set, and is fixed by
lowercasing. -/
theorem normalize_title_idem (s : String) :
    normalize_title (normalize_title s) = normalize_title s ∧
    wordsOf (normalize_title s).data = normWords s ∧
    ∀ w ∈ normWords s, 2 < w.length ∧
      (NORM_TITLE_STOP.any fun st => st.data == w) = false ∧
      ∀ c ∈ w, lowerChar c = c := by
  have hchars := normWords_chars s
  have hdec : ∀ w ∈ normWords s,
      decide (¬ (NORM_TITLE_STOP.any fun st => st.data == w) = true ∧
        2 < w.length) = true := by
    intro w hw
    unfold normWords at hw
    exact (List.mem_filter.mp hw).2
  have hH : ∀ w ∈ normWords s, w ≠ [] ∧
      (∀ c ∈ w, pySpace c = false ∧ keepWordSpace c = true ∧ lowerChar c = c) ∧
      decide (¬ (NORM_TITLE_STOP.any fun st => st.data == w) = true ∧
        2 < w.length) = true :=
    fun w hw => ⟨(hchars w hw).1, (hchars w hw).2, hdec w hw⟩
  refine ⟨?_, ?_, ?_⟩
  · show String.mk (joinSep ' ' (normWords (String.mk (joinSep ' ' (normWords s))))) =
      String.mk (joinSep ' ' (normWords s))
    rw [normWords_joinSep (normWords s) hH]
  · show wordsOf (joinSep ' ' (normWords s)) = normWords s
    exact wordsOf_joinSep (normWords s)
      (fun w hw => ⟨(hchars w hw).1, fun c hc => ((hchars w hw).2 c hc).1⟩)
  · intro w hw
    have hd := of_decide_eq_true (hdec w hw)
    refine ⟨hd.2, ?_, fun c hc => ((hchars w hw).2 c hc).2.2⟩
    cases hval : (NORM_TITLE_STOP.any fun st => st.data == w) with
    | false => rfl
    | true => exact absurd hval hd.1

/-- Witness for C9 at a concrete title. -/
theorem normalize_title_idem_witness :
    normalize_title (normalize_title "How the New Attack Works: a THREAT!") =
      normalize_title "How the New Attack Works: a THREAT!" ∧
    2 < ("attack".data : List Char).length := by
  refine ⟨(normalize_title_idem "How the New Attack Works: a THREAT!").1, ?_⟩
  exact ((normalize_title_idem "How the New Attack Works: a THREAT!").2.2
    "attack".data (by decide)).1
